import Mathlib

set_option maxRecDepth 16384

/-!
# Verification of the whatsBot conversation state machine

Shallow embedding of the WhatsApp CHW-bot webhook server found in this
repository, together with proofs about its per-user multi-step conversation
flows.  The repository contains several near-duplicate variants of the server;
the variants relevant to the claims are embedded in separate namespaces:

* `P3` — the full pipeline of `src/unnamed/part_003` (authorization gate with
  an access-denied reply, universal cancel, four flow handlers, webhook GET
  verification returning 400 on missing parameters).
* `P5` — the second program contained in `src/unnamed/part_005` (lines
  154-985): national-ID parent lookup in the baby flow, silent drop of
  unauthorized senders, phone-number normalization in the parent flow.
* `P4` — the program of `src/unnamed/part_004` (guardian lookup helper
  `getGuardianIdByNationalId`, early `return` on lookup failure).
* `P2` — the minimal webhook of `src/unnamed/part_002` (GET verification
  that answers 403 in every non-success case).

Handlers are embedded as pure functions from the handler's inputs (the
sender id, the stored `ConversationState`, the trimmed message text, its
lowercased form, and the responses of the backend calls the handler can make)
to a `HandlerResult`: the sender's map entry after the message is handled,
the list of texts passed to `sendMessage`, and the list of backend calls
issued.  The `userState` map is projected to the entry of the one sender
being processed, which is exact because every map operation in the source
uses the current `senderId`.
-/

namespace WhatsBot

/-! ## Models of the JavaScript primitives used by the source -/

/-- JS `String.prototype.trim` (the inputs of interest are ASCII): drop
whitespace from both ends. -/
def jsTrim (s : String) : String :=
  String.mk (((s.data.dropWhile Char.isWhitespace).reverse.dropWhile Char.isWhitespace).reverse)

/-- JS `String.prototype.toLowerCase` (ASCII inputs). -/
def jsToLower (s : String) : String := String.mk (s.data.map Char.toLower)

/-- JS `str.split(',')`. -/
def jsSplitComma (s : String) : List String := (s.data.splitOn ',').map String.mk

/-- JS `str.replace(/\D/g, '')`: keep only the decimal digits. -/
def digitsOnly (s : String) : String := String.mk (s.data.filter Char.isDigit)

/-- JS `str.slice(0, n)` for a nonnegative literal `n`. -/
def jsSlice (n : Nat) (s : String) : String := s.take n

/-- Value of a nonempty digit prefix; `none` when there is no leading digit. -/
def digitsVal (cs : List Char) : Option Nat :=
  let ds := cs.takeWhile Char.isDigit
  if ds.isEmpty then none
  else some (ds.foldl (fun a c => a * 10 + (c.toNat - 48)) 0)

/-- JS `parseInt(s, 10)`: skip leading whitespace, read an optional sign and
then the longest digit prefix; `none` models `NaN`. -/
def jsParseInt (s : String) : Option Int :=
  let cs := s.data.dropWhile Char.isWhitespace
  match cs with
  | '-' :: rest => (digitsVal rest).map (fun n => -(n : Int))
  | '+' :: rest => (digitsVal rest).map (fun n => (n : Int))
  | _ => (digitsVal cs).map (fun n => (n : Int))

/-- A JS number that may be `NaN` (`none`), as produced by `parseInt`. -/
abbrev JSNum := Option Int

/-- Rendering of a JS number in a template literal. -/
def jsNumToString (n : JSNum) : String :=
  match n with
  | none => "NaN"
  | some v => toString v

/-- Rendering of a possibly-`undefined` JS string in a template literal. -/
def jsStr (o : Option String) : String := o.getD ("undefined")

/-- Rendering of a possibly-`undefined` JS number field in a template literal. -/
def jsNumField (o : Option Int) : String :=
  match o with
  | none => "undefined"
  | some v => toString v

/-- JS truthiness of a `string | undefined` value: defined and nonempty. -/
def jsTruthy (o : Option String) : Bool :=
  match o with
  | some s => !s.isEmpty
  | none => false

/-- JS `===` on two `string | undefined` values (`undefined === undefined`
is `true`). -/
def strictEq (a b : Option String) : Bool := a == b

/-- JS `a || b` on a `string | undefined` value `a` with default `b`. -/
def jsOrElse (o : Option String) (dflt : String) : String :=
  match o with
  | some s => if s.isEmpty then dflt else s
  | none => dflt

/-- Stand-in for `new Date(s).toLocaleDateString(...)`: locale- and
environment-dependent date rendering.  No claim in this development depends
on any text produced through this function; it only appears inside messages
of branches that no theorem inspects character by character. -/
def toLocaleDateString (s : String) : String := s

/-! ## The date regex `/\d{4}-\d{2}-\d{2}/` (unanchored `test`) -/

/-- Does the pattern `\d{4}-\d{2}-\d{2}` match at the head of the list? -/
def matchAt : List Char → Bool
  | y1 :: y2 :: y3 :: y4 :: h1 :: m1 :: m2 :: h2 :: d1 :: d2 :: _ =>
      y1.isDigit && y2.isDigit && y3.isDigit && y4.isDigit && (h1 == '-') &&
      m1.isDigit && m2.isDigit && (h2 == '-') && d1.isDigit && d2.isDigit
  | _ => false

/-- Unanchored search: does the pattern match at some position? -/
def searchFrom : List Char → Bool
  | [] => false
  | c :: t => matchAt (c :: t) || searchFrom t

/-- JS `/\d{4}-\d{2}-\d{2}/.test(s)`. -/
def dateRegexTest (s : String) : Bool := searchFrom s.data

/-- The spec-side reading of the unanchored date test: the string contains,
anywhere, a substring of shape four digits, `-`, two digits, `-`, two digits.
(This definition follows the words of the claim and is compared with
`dateRegexTest`, which is the embedding of the source.) -/
def hasDateShapedSubstring (s : String) : Prop :=
  ∃ (pre post : List Char) (y1 y2 y3 y4 m1 m2 d1 d2 : Char),
    s.data = pre ++ y1 :: y2 :: y3 :: y4 :: '-' :: m1 :: m2 :: '-' :: d1 :: d2 :: post ∧
    (y1.isDigit && y2.isDigit && y3.isDigit && y4.isDigit &&
     m1.isDigit && m2.isDigit && d1.isDigit && d2.isDigit) = true

/-! ## The Kenyan phone regex `/^(?:254|\+254|0)?(7|1)\d{8}$/` -/

/-- The mandatory part `(7|1)\d{8}$`: a `7` or `1` followed by exactly eight
digits, ending the string. -/
def phoneTail (cs : List Char) : Bool :=
  match cs with
  | c :: rest => (c == '7' || c == '1') && (rest.length == 8) && rest.all Char.isDigit
  | [] => false

/-- Strip a literal prefix, or fail. -/
def stripPfx (p cs : List Char) : Option (List Char) :=
  if cs.take p.length = p then some (cs.drop p.length) else none

/-- JS `/^(?:254|\+254|0)?(7|1)\d{8}$/.test(s)`: the optional prefix is one of
`254`, `+254`, `0`, or absent, and the remainder is `(7|1)\d{8}`. -/
def kenyanPhoneTest (s : String) : Bool :=
  let cs := s.data
  phoneTail cs ||
  (match stripPfx (['2', '5', '4']) cs with
   | some r => phoneTail r
   | none => false) ||
  (match stripPfx (['+', '2', '5', '4']) cs with
   | some r => phoneTail r
   | none => false) ||
  (match stripPfx (['0']) cs with
   | some r => phoneTail r
   | none => false)

/-- JS `incomingText.replace(/^(0|\+)/, '254')` (part_005 line 396,
part_004 line 211): a leading `0` or `+` — just that one character — is
replaced by the three characters `254`. -/
def cleanPhone (s : String) : String :=
  match s.data with
  | '0' :: rest => String.mk ('2' :: '5' :: '4' :: rest)
  | '+' :: rest => String.mk ('2' :: '5' :: '4' :: rest)
  | _ => s

/-- JS `/^\d+$/.test(s)` (part_005 line 510). -/
def allDigitsNonEmpty (s : String) : Bool :=
  !s.isEmpty && s.data.all Char.isDigit

/-! ## Data model -/

/-- The flow tag of a `ConversationState`.  part_003 uses the strings
`'menu' | 'register_parent' | 'register_baby' | 'create_appointment' |
'modify_appointment'`; part_004/part_005 use `'parent' | 'baby' |
'appointment' | 'modify_cancel'` for the same four flows. -/
inductive Flow
  | menu
  | register_parent
  | register_baby
  | create_appointment
  | modify_appointment
deriving DecidableEq

/-- An appointment object as returned by the backend list call. -/
structure Appointment where
  id : Int
  appointment_date : String
  appointment_type : String
deriving DecidableEq

/-- A baby record as returned by the backend `/babies` debug call. -/
structure Baby where
  first_name : String
  date_of_birth : Option String
  immunization_status : Option String
deriving DecidableEq

/-- The loosely-typed `state.data` bag.  Every field is optional (`none` =
the property is absent).  Fields that the source assigns from `parseInt`
are `JSNum`-valued so that an assigned `NaN` is distinguishable from an
absent field; `next_appointment_date` is `Option (Option String)` because
the source assigns the JS value `null` (`some none`) to it. -/
structure UserData where
  official_name : Option String := none
  gender : Option String := none
  whatsapp_number : Option String := none
  nearest_clinic : Option String := none
  residence_location : Option String := none
  national_id : Option JSNum := none
  guardian_id : Option JSNum := none
  guardian_name : Option String := none
  guardian_national_id : Option String := none
  first_name : Option String := none
  last_name : Option String := none
  date_of_birth : Option String := none
  nationality : Option String := none
  immunization_status : Option String := none
  last_vaccine_received : Option String := none
  next_appointment_date : Option (Option String) := none
  baby_id : Option JSNum := none
  appointment_date : Option String := none
  purpose_notes : Option String := none
  chw_number : Option String := none
  appointments : Option (List Appointment) := none
  appointment_id : Option Int := none
deriving DecidableEq

/-- The empty `data` bag `{}`. -/
def emptyData : UserData := {}

/-- One per-sender conversation state: `{ flow, step, data }`. -/
structure ConvState where
  flow : Flow
  step : Nat
  data : UserData
deriving DecidableEq

/-- Result of `saveToLaravel`: `{ success: true, ... }` or
`{ success: false, error }` with the response body (or network-error text)
as a string. -/
inductive SaveResult
  | ok
  | err (body : String)
deriving DecidableEq

/-- `result.success`. -/
def SaveResult.success : SaveResult → Bool
  | .ok => true
  | .err _ => false

/-- `String(result.error)`; on the initial `{ success: false }` literal the
`error` property is absent and would render as `undefined`. -/
def SaveResult.errorString : SaveResult → String
  | .ok => "undefined"
  | .err e => e

/-- The initial `let result = { success: false };` of each handler.  Its
`error` property is never read on any reachable path. -/
def initialResult : SaveResult := SaveResult.err ("undefined")

/-- A backend call issued while handling one message (method and path; the
JSON bodies are built from the `data` bag and are not themselves modelled). -/
inductive BackendCall
  | save (method : String) (path : String)
  | fetch (path : String)
deriving DecidableEq

/-- Everything observable about the handling of one inbound message for one
sender: the sender's `userState` entry afterwards, the texts passed to
`sendMessage`, and the backend calls issued. -/
structure HandlerResult where
  entry : Option ConvState
  msgs : List String
  calls : List BackendCall
deriving DecidableEq

/-- The local variables of a flow handler when control falls out of its
`switch`: the (mutated-in-place) state object, `nextStep`, `reply`,
`isConfirmed`, `result`, whether `userState.delete(senderId)` ran inside the
case body, and the backend calls made so far. -/
structure StepOut where
  st : ConvState
  nextStep : Nat
  reply : String
  isConfirmed : Bool := false
  result : SaveResult := initialResult
  deleted : Bool := false
  calls : List BackendCall := []

/-- A flow-handler case body either falls through to the trailing
send-and-store logic or returns early. -/
inductive CaseOut
  | step (o : StepOut)
  | ret (r : HandlerResult)

/-- JS `arr?.[i]` for a possibly-undefined array and a possibly-`NaN` index:
`undefined` unless the array exists, the index is a number, and
`0 ≤ i < arr.length`. -/
def jsOptIndex {α : Type} (arr : Option (List α)) (idx : JSNum) : Option α :=
  match arr, idx with
  | some l, some i => if i < 0 then none else l.get? i.toNat
  | _, _ => none

/-- Rendering of a possibly-`undefined`, possibly-`NaN` number field in a
template literal. -/
def jsJSNumField (o : Option JSNum) : String :=
  match o with
  | none => "undefined"
  | some n => jsNumToString n

/-- Outcome of `JSON.parse` on a Laravel error body, as read by the error
branches of the part_004/part_005 handlers: `none` means the parse threw
(non-JSON body); `errors` carries `Object.values(errorData.errors).flat()`
when the body had a Laravel validation-`errors` object; `message` carries
`errorData.message`.  JSON parsing itself is JS library behaviour and is
passed to the handler as an input. -/
structure LaravelError where
  errors : Option (List String) := none
  message : Option String := none
deriving DecidableEq

/-- A parent record inside the response of the part_005
`/api/parents/search` lookup. -/
structure ParentRec where
  id : Int
  first_name : String
  last_name : String
deriving DecidableEq

/-- The JSON body returned by the part_005 parent-search endpoint: either a
`parent` object, or a `data` array of parents, or neither. -/
structure ParentSearchResponse where
  parent : Option ParentRec := none
  data : Option (List ParentRec) := none
deriving DecidableEq

/-- The JSON body returned by the part_004 guardian lookup endpoint
`/api/guardians/national_id/{id}` (`apiResponse?.id`). -/
structure GuardianApiRec where
  id : Option Int := none
deriving DecidableEq

/-- The backend responses available while handling one message.  At most one
of them is consumed per message. -/
structure Oracle where
  save : SaveResult := SaveResult.ok
  fetchAppts : Option (List Appointment) := none
  fetchBabies : Option (List Baby) := none
  parentSearch : Option ParentSearchResponse := none
  parsedError : Option LaravelError := none

/-! ## `P3`: the program of `src/unnamed/part_003` -/

namespace P3

/-- part_003 lines 24-31. -/
def AUTHORIZED_CHW_NUMBERS : List String :=
  ["254713182732", "254798765432", "254742918991", "254729054607", "254111786050"]

/-- part_003 line 34. -/
def INTRO_MESSAGE : String :=
  "🇰🇪 Jambo! I\x27m *Immuno*, your dedicated Community Health Worker assistant. I\x27m here to make tracking immunization schedules simple and quick."

/-- part_003 lines 35-45 (the template literal begins and ends with a
newline). -/
def MAIN_MENU : String :=
  "\n*--- Immuno Main Menu ---*\nHello, CHW! What would you like to do today?\n\n*1.* 👶 Register New Parent/Guardian (Household)\n*2.* 💉 Register New Baby (Child & Schedule)\n*3.* 🗓️ Create Ad-hoc Appointment\n*4.* ✏️ Modify/Cancel Appointment\n\n*Helpful Tip:* Type *CANCEL* at any time to return to this menu.\n"

/-- part_003 line 576: the fixed access-denied reply. -/
def ACCESS_DENIED : String :=
  "Access Denied. This bot is restricted to registered Community Health Workers only."

/-- The trailing logic shared by `handleRegisterParent`, `handleRegisterBaby`
and `handleCreateAppointment` (part_003 lines 204-207, 311-314, 397-400):
`if (!isConfirmed || (isConfirmed && !result.success)) then set + send`.
There is no `else` branch, so on a confirmed successful submission nothing is
sent and the entry stays as the case body left it (deleted). -/
def tail003 (c : CaseOut) : HandlerResult :=
  match c with
  | .ret r => r
  | .step o =>
    if !o.isConfirmed || (o.isConfirmed && !o.result.success) then
      ⟨some { o.st with step := o.nextStep }, [o.reply], o.calls⟩
    else
      ⟨if o.deleted then none else some o.st, [], o.calls⟩

/-- The `switch (state.step)` of `handleRegisterParent` (part_003 lines
134-202). -/
def registerParentCases (state : ConvState) (incomingText userInput : String)
    (save : SaveResult) : CaseOut :=
  match state.step with
  | 1 =>
    -- Collecting Name
    .step { st := { state with data := { state.data with official_name := some incomingText } },
            nextStep := 2,
            reply := "--- New Parent (2/4) ---\nGot it! Please enter the *Parent\x27s WhatsApp Number* (e.g., 2547XXXXXXXX) for future reminders:" }
  | 2 =>
    -- Collecting WhatsApp Number (stored raw in this variant)
    if !kenyanPhoneTest incomingText then
      .step { st := state, nextStep := 2,
              reply := "Invalid phone number format. Please ensure it starts with 2547 or 2541 (e.g., 2547XXXXXXXX):" }
    else
      .step { st := { state with data := { state.data with whatsapp_number := some incomingText } },
              nextStep := 3,
              reply := "--- New Parent (3/4) ---\nGreat! What is the *Nearest Clinic* to this household?" }
  | 3 =>
    -- Collecting Nearest Clinic
    .step { st := { state with data := { state.data with nearest_clinic := some incomingText } },
            nextStep := 4,
            reply := "--- New Parent (4/4) ---\nAnd finally, the **Residence Location** (e.g., estate/village name)?" }
  | 4 =>
    -- Collecting Residence Location, then the confirmation summary
    let d := { state.data with residence_location := some incomingText }
    .step { st := { state with data := d },
            nextStep := 5,
            reply := "\n*--- 📋 Final Confirmation ---*\nPlease review the details for the new parent:\n*Name/ID:* " ++ jsStr d.official_name ++ "\n*WhatsApp:* " ++ jsStr d.whatsapp_number ++ "\n*Clinic:* " ++ jsStr d.nearest_clinic ++ "\n*Residence:* " ++ jsStr d.residence_location ++ "\n\n*Is this data CORRECT? Reply Y or N.* (Reply N to restart this registration)\n            " }
  | 5 =>
    -- Confirmation (Y/N)
    if userInput = "y" then
      .step { st := state, nextStep := 6, isConfirmed := true, result := save,
              deleted := true,
              calls := [BackendCall.save ("POST") ("/register")],
              reply :=
                if save.success then
                  "✅ Wonderful! Parent *" ++ jsStr state.data.official_name ++ "* is successfully registered via the API. You can now use Option 2 to register their baby/child.\n\n" ++ MAIN_MENU
                else
                  "❌ Oh dear, there was an error saving the data. Please check the logs and ensure your Laravel API is running and try again, or type CANCEL.\nAPI Error: " ++ jsSlice 100 save.errorString ++ "..." }
    else if userInput = "n" then
      .step { st := { state with data := emptyData }, nextStep := 1,
              reply := "Okay, let\x27s start over! Please enter the *Parent/Guardian\x27s Official Name or ID* again:" }
    else
      .step { st := state, nextStep := 5,
              reply := "I didn\x27t quite catch that. Please reply *Y* to confirm the details or *N* to restart the registration." }
  | _ => .step { st := state, nextStep := state.step + 1, reply := "" }

/-- part_003 lines 128-208. -/
def handleRegisterParent (_senderId : String) (state : ConvState)
    (incomingText userInput : String) (save : SaveResult) : HandlerResult :=
  tail003 (registerParentCases state incomingText userInput save)

/-- The `switch (state.step)` of `handleRegisterBaby` (part_003 lines
218-309). -/
def registerBabyCases (state : ConvState) (incomingText userInput : String)
    (save : SaveResult) : CaseOut :=
  match state.step with
  | 1 =>
    -- Collecting Guardian ID: `parseInt` is assigned before validation
    let g := jsParseInt incomingText
    let st1 := { state with data := { state.data with guardian_id := some g } }
    match g with
    | none =>
      .step { st := st1, nextStep := 1,
              reply := "That doesn\x27t look like a valid Guardian ID number. Please enter the *numeric Guardian ID* (e.g., 1, 25, etc.):" }
    | some v =>
      if v ≤ 0 then
        .step { st := st1, nextStep := 1,
                reply := "That doesn\x27t look like a valid Guardian ID number. Please enter the *numeric Guardian ID* (e.g., 1, 25, etc.):" }
      else
        .step { st := st1, nextStep := 2,
                reply := "--- New Baby (2/7) ---\nThank you! Please enter the baby\x27s *First Name* (or official ID name):" }
  | 2 =>
    .step { st := { state with data := { state.data with first_name := some incomingText } },
            nextStep := 3,
            reply := "--- New Baby (3/7) ---\nGot it. Now, please enter the baby\x27s *Last Name*:" }
  | 3 =>
    .step { st := { state with data := { state.data with last_name := some incomingText } },
            nextStep := 4,
            reply := "--- New Baby (4/7) ---\nIs the baby *Male* or *Female*? (Reply with M or F):" }
  | 4 =>
    -- Collecting Gender
    if userInput = "m" ∨ userInput = "male" then
      .step { st := { state with data := { state.data with gender := some ("Male") } },
              nextStep := 5,
              reply := "--- New Baby (5/7) ---\nGender set to Male. Please enter the baby\x27s *Date of Birth* (in YYYY-MM-DD format, e.g., 2025-01-20):" }
    else if userInput = "f" ∨ userInput = "female" then
      .step { st := { state with data := { state.data with gender := some ("Female") } },
              nextStep := 5,
              reply := "--- New Baby (5/7) ---\nGender set to Female. Please enter the baby\x27s *Date of Birth* (in YYYY-MM-DD format, e.g., 2025-01-20):" }
    else
      .step { st := state, nextStep := 4,
              reply := "Invalid input. Please reply with *M* for Male or *F* for Female:" }
  | 5 =>
    -- Collecting Date of Birth: unanchored regex test, raw text stored
    if dateRegexTest incomingText then
      .step { st := { state with data := { state.data with date_of_birth := some (incomingText ++ "T00:00:00Z") } },
              nextStep := 6,
              reply := "--- New Baby (6/7) ---\nDOB confirmed. What is the baby\x27s *Nationality*? (e.g., Kenyan):" }
    else
      .step { st := state, nextStep := 5,
              reply := "Invalid date format. Please enter the *Date of Birth* exactly in YYYY-MM-DD format (e.g., 2025-01-20):" }
  | 6 =>
    -- Collecting Nationality and the sentinel status fields
    let d := { state.data with
               nationality := some incomingText
               immunization_status := some ("PENDING_SCHEDULE")
               last_vaccine_received := some ("NONE")
               next_appointment_date := some none }
    -- `state.data.date_of_birth.substring(0, 10)`: JS would throw if the
    -- field were unset, which is unreachable at this step.
    .step { st := { state with data := d },
            nextStep := 7,
            reply := "\n*--- 📋 Final Confirmation for Baby ---*\nPlease review the details for the new baby:\n*Guardian ID:* " ++ jsJSNumField d.guardian_id ++ "\n*Name:* " ++ jsStr d.first_name ++ " " ++ jsStr d.last_name ++ "\n*Gender:* " ++ jsStr d.gender ++ "\n*DOB:* " ++ jsSlice 10 (jsStr d.date_of_birth) ++ "\n*Nationality:* " ++ jsStr d.nationality ++ "\n\n*Is this data CORRECT? Reply Y or N.* (Reply N to restart this registration)\n            " }
  | 7 =>
    -- Confirmation (Y/N); the payload is the whole `state.data`
    if userInput = "y" then
      .step { st := state, nextStep := 8, isConfirmed := true, result := save,
              deleted := true,
              calls := [BackendCall.save ("POST") ("/babies")],
              reply :=
                if save.success then
                  "✅ Success! Baby *" ++ jsStr state.data.first_name ++ "* is registered and the immunization schedule will be created on your backend. Thank you for your work!\n\n" ++ MAIN_MENU
                else
                  "❌ Error! The baby registration failed. Check the logs and ensure your Laravel API is running and that Guardian ID " ++ jsJSNumField state.data.guardian_id ++ " exists. Type CANCEL to return to the menu.\nAPI Error: " ++ jsSlice 100 save.errorString ++ "..." }
    else if userInput = "n" then
      .step { st := { state with data := emptyData }, nextStep := 1,
              reply := "Okay, let\x27s start over! Please enter the *Guardian ID* again:" }
    else
      .step { st := state, nextStep := 7,
              reply := "I didn\x27t quite catch that. Please reply *Y* to confirm the details or *N* to restart the registration." }
  | _ => .step { st := state, nextStep := state.step + 1, reply := "" }

/-- part_003 lines 212-315. -/
def handleRegisterBaby (_senderId : String) (state : ConvState)
    (incomingText userInput : String) (save : SaveResult) : HandlerResult :=
  tail003 (registerBabyCases state incomingText userInput save)

/-- The `switch (state.step)` of `handleCreateAppointment` (part_003 lines
325-395). -/
def createAppointmentCases (senderId : String) (state : ConvState)
    (incomingText userInput : String) (save : SaveResult) : CaseOut :=
  match state.step with
  | 1 =>
    -- Collecting Baby ID
    let b := jsParseInt incomingText
    let st1 := { state with data := { state.data with baby_id := some b } }
    match b with
    | none =>
      .step { st := st1, nextStep := 1,
              reply := "That doesn\x27t look like a valid Baby ID. Please enter the *numeric Baby ID* for the appointment:" }
    | some v =>
      if v ≤ 0 then
        .step { st := st1, nextStep := 1,
                reply := "That doesn\x27t look like a valid Baby ID. Please enter the *numeric Baby ID* for the appointment:" }
      else
        .step { st := st1, nextStep := 2,
                reply := "--- New Appointment (2/4) ---\nGot the Baby ID. What is the *Date of the Appointment*? (in YYYY-MM-DD format, e.g., 2025-11-20):" }
  | 2 =>
    -- Collecting Appointment Date
    if dateRegexTest incomingText then
      .step { st := { state with data := { state.data with appointment_date := some (incomingText ++ "T00:00:00Z") } },
              nextStep := 3,
              reply := "--- New Appointment (3/4) ---\nDate confirmed. What is the *Purpose* of this ad-hoc appointment? (e.g., \x27Make up for missed dose\x27, \x27Checkup\x27):" }
    else
      .step { st := state, nextStep := 2,
              reply := "Invalid date format. Please enter the *Appointment Date* exactly in YYYY-MM-DD format (e.g., 2025-11-20):" }
  | 3 =>
    -- Collecting Purpose/Notes; the creator is the senderId
    let d := { state.data with purpose_notes := some incomingText, chw_number := some senderId }
    .step { st := { state with data := d },
            nextStep := 4,
            reply := "\n*--- 📋 Final Appointment Confirmation ---*\nPlease review the details for the new appointment:\n*Baby ID:* " ++ jsJSNumField d.baby_id ++ "\n*Date:* " ++ jsSlice 10 (jsStr d.appointment_date) ++ "\n*Purpose:* " ++ jsStr d.purpose_notes ++ "\n*CHW (Creator):* " ++ jsStr d.chw_number ++ "\n\n*Is this data CORRECT? Reply Y or N.* (Reply N to restart)\n            " }
  | 4 =>
    -- Confirmation (Y/N)
    if userInput = "y" then
      .step { st := state, nextStep := 5, isConfirmed := true, result := save,
              deleted := true,
              calls := [BackendCall.save ("POST") ("/appointments")],
              reply :=
                if save.success then
                  "✅ Success! An Ad-hoc Appointment for Baby ID " ++ jsJSNumField state.data.baby_id ++ " on " ++ jsSlice 10 (jsStr state.data.appointment_date) ++ " is created. The parent will be notified.\n\n" ++ MAIN_MENU
                else
                  "❌ Error! Appointment creation failed. Check the logs and ensure your Laravel API is running. Type CANCEL.\nAPI Error: " ++ jsSlice 100 save.errorString ++ "..." }
    else if userInput = "n" then
      .step { st := { state with data := emptyData }, nextStep := 1,
              reply := "Okay, let\x27s restart the Ad-hoc Appointment process. Please enter the *Baby ID* again:" }
    else
      .step { st := state, nextStep := 4,
              reply := "I didn\x27t quite catch that. Please reply *Y* to confirm the details or *N* to restart the process." }
  | _ => .step { st := state, nextStep := state.step + 1, reply := "" }

/-- part_003 lines 319-401. -/
def handleCreateAppointment (senderId : String) (state : ConvState)
    (incomingText userInput : String) (save : SaveResult) : HandlerResult :=
  tail003 (createAppointmentCases senderId state incomingText userInput save)

/-- The numbered appointment list shown at step 1 of the modify/cancel flow
(part_003 lines 423-425). -/
def appointmentListText (appts : List Appointment) : String :=
  String.intercalate ("\n")
    (appts.enum.map (fun p =>
      "*" ++ toString (p.1 + 1) ++ ".* Date: " ++ toLocaleDateString p.2.appointment_date ++
      " | Type: " ++ p.2.appointment_type ++ " | ID: " ++ toString p.2.id))

/-- Outcome of the part_003 modify/cancel `switch`: either control falls
through to the trailing `if (userState.has(senderId)) sendMessage(reply)`
with the sender's entry, the `reply` variable and the backend calls, or the
case body threw and the handler aborted with the entry as the case body left
it and no reply sent.  The throwing branches are the submission paths of
steps 4 and 5: this handler declares only `let reply` (part_003 line 405),
never `result`, so the bare assignments `result = await saveToLaravel(...)`
(lines 483 and 505) first complete the awaited backend call and then throw
`ReferenceError` — the file is an ES module, hence strict mode — skipping
the `result.success` branch, the reply, and the `userState.delete`. -/
inductive ModifyOut
  | fallthrough (entry : Option ConvState) (reply : String) (calls : List BackendCall)
  | thrown (entry : Option ConvState) (calls : List BackendCall)

/-- The `switch (state.step)` of `handleModifyCancelAppointment` (part_003
lines 407-518).  The branches that call `userState.delete` yield an entry of
`none`; branches without a `userState.set` leave the (mutated-in-place)
stored object as the entry.  The `SaveResult` of the PUT/DELETE call is a
parameter, but the handler dies on the undeclared-`result` assignment before
it could read it (see `ModifyOut`), so it is unused. -/
def modifyCancelCases (_senderId : String) (state : ConvState)
    (incomingText userInput : String) (fetchAppts : Option (List Appointment))
    (_save : SaveResult) : ModifyOut :=
  match state.step with
  | 1 =>
    -- Collecting Baby ID (assigned before validation)
    let b := jsParseInt incomingText
    let st1 := { state with data := { state.data with baby_id := some b } }
    let invalid :=
      ModifyOut.fallthrough (some st1)
        ("That doesn\x27t look like a valid Baby ID. Please enter the *numeric Baby ID* whose appointments you want to manage:")
        []
    match b with
    | none => invalid
    | some v =>
      if v ≤ 0 then invalid
      else
        -- fetch `/appointments/${baby_id}` and inspect `.appointments`
        let call := BackendCall.fetch ("/appointments/" ++ toString v)
        match fetchAppts with
        | none =>
          ModifyOut.fallthrough none
            ("⚠️ No active appointments found for Baby ID " ++ toString v ++ ". Type CANCEL to return to the menu.")
            [call]
        | some [] =>
          ModifyOut.fallthrough none
            ("⚠️ No active appointments found for Baby ID " ++ toString v ++ ". Type CANCEL to return to the menu.")
            [call]
        | some appts =>
          ModifyOut.fallthrough
            (some { st1 with
                    step := 2
                    data := { st1.data with appointments := some appts } })
            ("\n*--- Modify/Cancel Appointment ---*\nFound the following active appointments for Baby ID " ++ toString v ++ ":\n" ++ appointmentListText appts ++ "\n\nReply with the *NUMBER* of the appointment you wish to modify or cancel.\n                ")
            [call]
  | 2 =>
    -- Selecting an appointment: `state.data.appointments?.[parseInt(text) - 1]`
    let choiceIndex : JSNum := (jsParseInt incomingText).map (fun v => v - 1)
    let selected : Option Appointment := jsOptIndex state.data.appointments choiceIndex
    match selected with
    | some appt =>
      ModifyOut.fallthrough
        (some { state with
                step := 3
                data := { state.data with appointment_id := some appt.id } })
        ("\n*Selected Appointment ID: " ++ toString appt.id ++ "* on " ++ toLocaleDateString appt.appointment_date ++ ".\nWhat would you like to do?\n*1.* Modify Date/Notes\n*2.* Cancel Appointment\n                ")
        []
    | none =>
      ModifyOut.fallthrough (some { state with step := 2 })
        ("Invalid selection. Please reply with the *NUMBER* (1, 2, 3...) of the appointment you want to manage.")
        []
  | 3 =>
    -- Choose modify (step 4) or cancel (step 5)
    if userInput = "1" then
      ModifyOut.fallthrough (some { state with step := 4 })
        ("You chose to **Modify**. Please enter the *NEW Date* (YYYY-MM-DD) and a brief *Note* (e.g., 2025-12-15, Parent requested later date):")
        []
    else if userInput = "2" then
      ModifyOut.fallthrough (some { state with step := 5 })
        ("Are you sure you want to **CANCEL** Appointment ID " ++ jsNumField state.data.appointment_id ++ "? Reply *YES* to confirm cancellation.")
        []
    else
      ModifyOut.fallthrough (some { state with step := 3 })
        ("Invalid choice. Reply *1* to Modify or *2* to Cancel:")
        []
  | 4 =>
    -- Execute Modify (PUT): `incomingText.split(',').map(p => p.trim())`.
    -- The `newNote` local (line 479) is pure and feeds only the unreachable
    -- success reply, so it is omitted here.
    let parts := (jsSplitComma incomingText).map jsTrim
    let newDate := parts.headD ("")
    if dateRegexTest newDate then
      -- `result = await saveToLaravel(..., "PUT")`: the PUT call completes,
      -- then the assignment to the undeclared `result` throws; the
      -- success/error replies and the `userState.delete` of lines 489-494
      -- are unreachable, so the stored entry survives at step 4.
      ModifyOut.thrown (some state)
        [BackendCall.save ("PUT") ("/appointments/" ++ jsNumField state.data.appointment_id)]
    else
      ModifyOut.fallthrough (some { state with step := 4 })
        ("Invalid format. Please enter the *NEW Date* (YYYY-MM-DD) and a brief *Note*, separated by a comma. (e.g., 2025-12-15, New time confirmed):")
        []
  | 5 =>
    -- Execute Cancel (DELETE): requires the literal confirmation `yes`
    if userInput = "yes" then
      -- `result = await saveToLaravel(..., "DELETE")`: the DELETE call
      -- completes, then the assignment to the undeclared `result` throws;
      -- the replies and the `userState.delete` of lines 507-512 are
      -- unreachable, so the stored entry survives at step 5.
      ModifyOut.thrown (some state)
        [BackendCall.save ("DELETE") ("/appointments/" ++ jsNumField state.data.appointment_id)]
    else
      ModifyOut.fallthrough (some { state with step := 3 })
        ("Cancellation not confirmed. Returning to the action menu. Reply *1* to Modify or *2* to Cancel:")
        []
  | _ => ModifyOut.fallthrough (some state) ("") []

/-- part_003 lines 404-524.  On normal fall-through, the trailing
`if (userState.has(senderId)) await sendMessage(senderId, reply)` sends the
reply only when the flow did not terminate; when the case body threw (the
undeclared-`result` assignment of steps 4 and 5), the handler aborts — the
trailing guard never runs and nothing is sent. -/
def handleModifyCancelAppointment (senderId : String) (state : ConvState)
    (incomingText userInput : String) (fetchAppts : Option (List Appointment))
    (save : SaveResult) : HandlerResult :=
  match modifyCancelCases senderId state incomingText userInput fetchAppts save with
  | .fallthrough entry reply calls => ⟨entry, if entry.isSome then [reply] else [], calls⟩
  | .thrown entry calls => ⟨entry, [], calls⟩

/-- The `'babies'` debug branch of the dispatcher (part_003 lines 651-663). -/
def babiesDebugReply (fetchBabies : Option (List Baby)) : String :=
  match fetchBabies with
  | some (b :: bs) =>
    let babyList := String.intercalate ("\n")
      ((b :: bs).map (fun baby =>
        "👶 " ++ baby.first_name ++ " (DOB: " ++
        (match baby.date_of_birth with
         | some dob => if dob.isEmpty then "Unknown" else toLocaleDateString dob
         | none => "Unknown") ++
        ", Status: " ++ jsOrElse baby.immunization_status ("N/A") ++ ")"))
    "*API Test Success* Found " ++ toString (b :: bs).length ++ " Babies:\n\n" ++ babyList
  | some [] => "*API Test Fail:* No baby records found or API error."
  | none => "*API Test Fail:* No baby records found or API error."

/-- The POST-webhook message-processing pipeline of part_003 (lines 552-672),
projected to the handling of one text message for one sender: authorization
gate (with the digit-stripped sender id), the universal cancel command, then
dispatch on the active flow, then the main-menu section. -/
def processMessage (o : Oracle) (store : Option ConvState)
    (fromId : String) (body : String) : HandlerResult :=
  let senderId := digitsOnly fromId
  if !(AUTHORIZED_CHW_NUMBERS.contains senderId) then
    -- 0.5. AUTHORIZATION GATE: reply and return, no state access
    ⟨store, [ACCESS_DENIED], []⟩
  else
    let incomingText := jsTrim body
    let state := store.getD ⟨Flow.menu, 0, emptyData⟩
    let userInput := jsToLower incomingText
    -- 0. CANCEL COMMAND (checked before any flow dispatch)
    if userInput = "cancel" then
      if state.flow ≠ Flow.menu then
        ⟨none, ["Operation cancelled. Heading back to the main menu.", MAIN_MENU], []⟩
      else
        ⟨store, ["You are already at the Immuno Main Menu.", MAIN_MENU], []⟩
    else
      -- 1. active flow dispatch
      match state.flow with
      | Flow.register_parent => handleRegisterParent senderId state incomingText userInput o.save
      | Flow.register_baby => handleRegisterBaby senderId state incomingText userInput o.save
      | Flow.create_appointment => handleCreateAppointment senderId state incomingText userInput o.save
      | Flow.modify_appointment =>
        handleModifyCancelAppointment senderId state incomingText userInput o.fetchAppts o.save
      | Flow.menu =>
        -- 2. main-menu selection
        if ["1", "2", "3", "4"].contains userInput then
          if userInput = "1" then
            ⟨some ⟨Flow.register_parent, 1, emptyData⟩,
             ["--- New Parent Registration (1/4) ---\nHello! Please enter the *Parent/Guardian\x27s Official Name or ID* to start:"], []⟩
          else if userInput = "2" then
            ⟨some ⟨Flow.register_baby, 1, emptyData⟩,
             ["--- New Baby Registration (1/7) ---\nTo link the baby, please enter the *Guardian ID* (the number from their registration):"], []⟩
          else if userInput = "3" then
            ⟨some ⟨Flow.create_appointment, 1, emptyData⟩,
             ["--- New Ad-hoc Appointment (1/4) ---\nTo schedule an appointment, please enter the *Baby ID* for the child:"], []⟩
          else
            ⟨some ⟨Flow.modify_appointment, 1, emptyData⟩,
             ["--- Modify/Cancel Appointment (1/5) ---\nPlease enter the *Baby ID* for the child whose appointments you want to manage:"], []⟩
        else if userInput = "babies" then
          ⟨store, [babiesDebugReply o.fetchBabies], [BackendCall.fetch ("/babies")]⟩
        else
          ⟨store, [INTRO_MESSAGE, MAIN_MENU], []⟩

/-- The GET `/whatsapp/webhook` verification handler of part_003 (lines
533-547): 200 with the challenge on a match, 403 when both parameters are
present (truthy) but the check fails, and 400 when `hub.mode` or
`hub.verify_token` is missing. -/
def verifyGet (mode token challenge verifyToken : Option String) : Nat × Option String :=
  if jsTruthy mode && jsTruthy token then
    if strictEq mode (some ("subscribe")) && strictEq token verifyToken then
      (200, challenge)
    else
      (403, some ("Forbidden: Verification token mismatch."))
  else
    (400, some ("Bad Request: Missing hub.mode or hub.token."))

end P3

/-! ## `P5`: the second program of `src/unnamed/part_005` (lines 154-985) -/

namespace P5

/-- part_005 lines 179-186 (same allow-list as part_003). -/
def AUTHORIZED_CHW_NUMBERS : List String :=
  ["254713182732", "254798765432", "254742918991", "254729054607", "254111786050"]

/-- part_005 line 189 (defined by the source but never sent by this
variant's dispatcher). -/
def INTRO_MESSAGE : String :=
  "Jambo! I\x27m Immuno, your dedicated Community Health Worker assistant. I\x27m here to make tracking immunization schedules simple and quick."

/-- part_005 lines 190-200. -/
def MAIN_MENU : String :=
  "\n--- Immuno Main Menu ---\nHello, CHW! What would you like to do today?\n\n1. Register New Parent/Guardian (Household)\n2. Register New Baby (Child & Schedule)\n3. Create Ad-hoc Appointment\n4. Modify/Cancel Appointment\n\nHelpful Tip: Type CANCEL at any time to return to this menu.\n"

/-- This variant's `sendMessage` (part_005 lines 204-225) skips a text that
is empty after trimming, so such a call produces no message. -/
def send (t : String) : List String :=
  if (jsTrim t).isEmpty then [] else [t]

/-- `lookupParentByNationalId` (part_005 lines 319-350), as a function of the
parsed JSON body of the search call: a `parent` object wins, else the first
element of a `data` array, else no guardian. -/
def lookupParentByNationalId (responseData : Option ParentSearchResponse) :
    Option (Int × String) :=
  match responseData with
  | some r =>
    match r.parent with
    | some p => some (p.id, p.first_name ++ " " ++ p.last_name)
    | none =>
      match r.data with
      | some (p :: _) => some (p.id, p.first_name ++ " " ++ p.last_name)
      | _ => none
  | none => none

/-- The trailing logic of the part_005 record-flow handlers (lines 487-493,
655-661, 743-749): on `!isConfirmed || !result.success` the state is
re-stored with the advanced `step` and the reply is sent; on a confirmed
success only the reply is sent (the entry stays deleted). -/
def tail005 (c : CaseOut) : HandlerResult :=
  match c with
  | .ret r => r
  | .step o =>
    if !o.isConfirmed || (o.isConfirmed && !o.result.success) then
      ⟨some { o.st with step := o.nextStep }, send o.reply, o.calls⟩
    else
      ⟨if o.deleted then none else some o.st, send o.reply, o.calls⟩

/-- The reply of the `catch`/branch analysis on a failed parent registration
(part_005 lines 459-473). -/
def parentRegFailReply (parsedError : Option LaravelError) (e : String) : String :=
  match parsedError with
  | some le =>
    match le.errors with
    | some msgs =>
      "⚠️ Registration failed! Please correct the following API errors:\n" ++ String.intercalate ("\n") msgs ++ "\n\nType CANCEL to return to the menu."
    | none =>
      "Error saving data. Check the logs for details. Type CANCEL.\nAPI Error: " ++ jsSlice 150 e ++ "..."
  | none =>
    "Error saving data. Could not process API response. Check the logs for a non-JSON error. Type CANCEL.\nAPI Error: " ++ jsSlice 150 e ++ "..."

/-- The `switch (state.step)` of the part_005 `handleRegisterParent` (lines
366-485).  The `nameParts`/`firstName`/`lastName` locals are only used to
build the registration payload, which is not itself modelled. -/
def registerParentCases (state : ConvState) (incomingText userInput : String)
    (save : SaveResult) (parsedError : Option LaravelError) : CaseOut :=
  match state.step with
  | 1 =>
    -- Collecting Name
    .step { st := { state with data := { state.data with official_name := some incomingText } },
            nextStep := 2,
            reply := "--- New Parent (2/5) ---\nGot it! Is the Parent/Guardian Male or Female? (Reply with M or F):" }
  | 2 =>
    -- Collecting Gender
    if userInput = "m" ∨ userInput = "male" then
      .step { st := { state with data := { state.data with gender := some ("Male") } },
              nextStep := 3,
              reply := "--- New Parent (3/5) ---\nGreat! Please enter the Parent\x27s WhatsApp Number (e.g., 2547XXXXXXXX) for future reminders:" }
    else if userInput = "f" ∨ userInput = "female" then
      .step { st := { state with data := { state.data with gender := some ("Female") } },
              nextStep := 3,
              reply := "--- New Parent (3/5) ---\nGreat! Please enter the Parent\x27s WhatsApp Number (e.g., 2547XXXXXXXX) for future reminders:" }
    else
      .step { st := state, nextStep := 2,
              reply := "Invalid input. Please reply with M for Male or F for Female:" }
  | 3 =>
    -- Collecting WhatsApp Number, cleaned with `replace(/^(0|\+)/, '254')`
    if !kenyanPhoneTest incomingText then
      .step { st := state, nextStep := 3,
              reply := "Invalid phone number format. Please ensure it starts with 2547 or 2541 (e.g., 2547XXXXXXXX):" }
    else
      .step { st := { state with data := { state.data with whatsapp_number := some (cleanPhone incomingText) } },
              nextStep := 4,
              reply := "--- New Parent (4/5) ---\nGreat! What is the Nearest Clinic to this household?" }
  | 4 =>
    .step { st := { state with data := { state.data with nearest_clinic := some incomingText } },
            nextStep := 5,
            reply := "--- New Parent (5/5) ---\nAnd finally, the **Residence Location** (e.g., estate/village name)?" }
  | 5 =>
    let d := { state.data with residence_location := some incomingText }
    .step { st := { state with data := d },
            nextStep := 6,
            reply := "\n--- Final Confirmation ---\nPlease review the details for the new parent:\nName/ID: " ++ jsStr d.official_name ++ "\nGender: " ++ jsStr d.gender ++ "\nWhatsApp: " ++ jsStr d.whatsapp_number ++ "\nClinic: " ++ jsStr d.nearest_clinic ++ "\nResidence: " ++ jsStr d.residence_location ++ "\n\nIs this data CORRECT? Reply Y or N. (Reply N to restart this registration)\n            " }
  | 6 =>
    -- Confirmation (Y/N)
    if userInput = "y" then
      .step { st := state, nextStep := 7, isConfirmed := true, result := save,
              deleted := true,
              calls := [BackendCall.save ("POST") ("/api/register")],
              reply :=
                if save.success then
                  "Success! Parent " ++ jsStr state.data.official_name ++ " is successfully registered via the API. You can now use Option 2 to register their baby/child.\n\n" ++ MAIN_MENU
                else
                  parentRegFailReply parsedError save.errorString }
    else if userInput = "n" then
      .step { st := { state with data := emptyData }, nextStep := 1,
              reply := "Okay, let\x27s start over! Please enter the Parent/Guardian\x27s Official Name or ID again:" }
    else
      .step { st := state, nextStep := 6,
              reply := "I didn\x27t quite catch that. Please reply Y to confirm the details or N to restart the registration." }
  | _ => .step { st := state, nextStep := state.step + 1, reply := "" }

/-- part_005 lines 355-494. -/
def handleRegisterParent (_senderId : String) (state : ConvState)
    (incomingText userInput : String) (save : SaveResult)
    (parsedError : Option LaravelError) : HandlerResult :=
  tail005 (registerParentCases state incomingText userInput save parsedError)

/-- The not-found reply of the part_005 baby flow, step 1 (lines 520-528). -/
def parentLookupFailedMsg (nationalId : String) : String :=
  "\n⚠️ Parent Lookup Failed!\nA Parent/Guardian with National ID **" ++ nationalId ++ "** was not found in the Immuno system.\nPlease ask the CHW to:\n1. Double-check the ID.\n2. If the parent is new, use **Option 1 (Register New Parent/Guardian)** first.\n\nType CANCEL to return to the main menu.\n                "

/-- The reply of the branch analysis on a failed baby registration
(part_005 lines 627-640). -/
def babyRegFailReply (parsedError : Option LaravelError) (e : String)
    (guardianId : Option JSNum) : String :=
  match parsedError with
  | some le =>
    match le.errors with
    | some msgs =>
      "⚠️ Registration failed! Please correct the following API errors:\n" ++ String.intercalate ("\n") msgs ++ "\n\nType CANCEL to return to the menu."
    | none =>
      let errorMessage := jsOrElse le.message
        ("Error! Check logs and ensure Guardian ID " ++ jsJSNumField guardianId ++ " exists.")
      "Error! The baby registration failed. Type CANCEL to return to the menu.\nAPI Error: " ++ jsSlice 150 errorMessage ++ "..."
  | none =>
    "Error! Could not process API response. Check the logs for a non-JSON error. Type CANCEL.\nAPI Error: " ++ jsSlice 150 e ++ "..."

/-- The `switch (state.step)` of the part_005 `handleRegisterBaby` (lines
507-653).  Note that the parent-lookup-failure branch executes
`userState.delete` and then `break`s (line 530), so control still reaches
the trailing `userState.set`. -/
def registerBabyCases (state : ConvState) (incomingText userInput : String)
    (searchResp : Option ParentSearchResponse) (save : SaveResult)
    (parsedError : Option LaravelError) : CaseOut :=
  match state.step with
  | 1 =>
    -- Collecting the parent's National ID
    let nationalId := jsTrim incomingText
    if !allDigitsNonEmpty nationalId || nationalId.length < 5 then
      .step { st := state, nextStep := 1,
              reply := "That doesn\x27t look like a valid National ID. Please enter the **Parent/Guardian\x27s National ID** (a number, e.g., 37108924):" }
    else
      let call := BackendCall.fetch ("/api/parents/search?national_id=" ++ nationalId)
      match lookupParentByNationalId searchResp with
      | none =>
        -- `userState.delete(senderId); break;` — NOT an early return
        .step { st := state, nextStep := 2, deleted := true, calls := [call],
                reply := parentLookupFailedMsg nationalId }
      | some pr =>
        let d := { state.data with
                   guardian_id := some (some pr.1)
                   guardian_name := some pr.2
                   guardian_national_id := some nationalId }
        .step { st := { state with data := d }, nextStep := 2, calls := [call],
                reply := "\n✅ Parent Found!\nLinking baby to: **" ++ pr.2 ++ "** (National ID: " ++ nationalId ++ ").\n--- New Baby (2/7) ---\nThank you! Please enter the baby\x27s First Name (or official ID name):\n            " }
  | 2 =>
    .step { st := { state with data := { state.data with first_name := some incomingText } },
            nextStep := 3,
            reply := "--- New Baby (3/7) ---\nGot it. Now, please enter the baby\x27s Last Name:" }
  | 3 =>
    .step { st := { state with data := { state.data with last_name := some incomingText } },
            nextStep := 4,
            reply := "--- New Baby (4/7) ---\nIs the baby Male or Female? (Reply with M or F):" }
  | 4 =>
    if userInput = "m" ∨ userInput = "male" then
      .step { st := { state with data := { state.data with gender := some ("Male") } },
              nextStep := 5,
              reply := "--- New Baby (5/7) ---\nGender set to Male. Please enter the baby\x27s Date of Birth (in YYYY-MM-DD format, e.g., 2025-01-20):" }
    else if userInput = "f" ∨ userInput = "female" then
      .step { st := { state with data := { state.data with gender := some ("Female") } },
              nextStep := 5,
              reply := "--- New Baby (5/7) ---\nGender set to Female. Please enter the baby\x27s Date of Birth (in YYYY-MM-DD format, e.g., 2025-01-20):" }
    else
      .step { st := state, nextStep := 4,
              reply := "Invalid input. Please reply with M for Male or F for Female:" }
  | 5 =>
    -- Collecting Date of Birth: unanchored regex test, raw text stored
    if dateRegexTest incomingText then
      .step { st := { state with data := { state.data with date_of_birth := some (incomingText ++ "T00:00:00Z") } },
              nextStep := 6,
              reply := "--- New Baby (6/7) ---\nDOB confirmed. What is the baby\x27s Nationality? (e.g., Kenyan):" }
    else
      .step { st := state, nextStep := 5,
              reply := "Invalid date format. Please enter the Date of Birth exactly in YYYY-MM-DD format (e.g., 2025-01-20):" }
  | 6 =>
    let d := { state.data with
               nationality := some incomingText
               immunization_status := some ("PENDING_SCHEDULE")
               last_vaccine_received := some ("NONE")
               next_appointment_date := some none }
    .step { st := { state with data := d },
            nextStep := 7,
            reply := "\n--- Final Confirmation for Baby ---\nPlease review the details for the new baby:\nGuardian: " ++ jsStr d.guardian_name ++ " (ID: " ++ jsStr d.guardian_national_id ++ ")\nName: " ++ jsStr d.first_name ++ " " ++ jsStr d.last_name ++ "\nGender: " ++ jsStr d.gender ++ "\nDOB: " ++ jsSlice 10 (jsStr d.date_of_birth) ++ "\nNationality: " ++ jsStr d.nationality ++ "\n\nIs this data CORRECT? Reply Y or N. (Reply N to restart this registration)\n            " }
  | 7 =>
    if userInput = "y" then
      .step { st := state, nextStep := 8, isConfirmed := true, result := save,
              deleted := true,
              calls := [BackendCall.save ("POST") ("/api/babies")],
              reply :=
                if save.success then
                  "Success! Baby " ++ jsStr state.data.first_name ++ " is registered and the immunization schedule will be created on your backend. Thank you for your work!\n\n" ++ MAIN_MENU
                else
                  babyRegFailReply parsedError save.errorString state.data.guardian_id }
    else if userInput = "n" then
      .step { st := { state with data := emptyData }, nextStep := 1,
              reply := "Okay, let\x27s start over! Please enter the Guardian\x27s National ID again:" }
    else
      .step { st := state, nextStep := 7,
              reply := "I didn\x27t quite catch that. Please reply Y to confirm the details or N to restart the registration." }
  | _ => .step { st := state, nextStep := state.step + 1, reply := "" }

/-- part_005 lines 501-662. -/
def handleRegisterBaby (_senderId : String) (state : ConvState)
    (incomingText userInput : String) (searchResp : Option ParentSearchResponse)
    (save : SaveResult) (parsedError : Option LaravelError) : HandlerResult :=
  tail005 (registerBabyCases state incomingText userInput searchResp save parsedError)

/-- The `switch (state.step)` of the part_005 `handleCreateAppointment`
(lines 672-741). -/
def createAppointmentCases (senderId : String) (state : ConvState)
    (incomingText userInput : String) (save : SaveResult) : CaseOut :=
  match state.step with
  | 1 =>
    let b := jsParseInt incomingText
    let st1 := { state with data := { state.data with baby_id := some b } }
    match b with
    | none =>
      .step { st := st1, nextStep := 1,
              reply := "That doesn\x27t look like a valid Baby ID. Please enter the *numeric Baby ID* for the appointment:" }
    | some v =>
      if v ≤ 0 then
        .step { st := st1, nextStep := 1,
                reply := "That doesn\x27t look like a valid Baby ID. Please enter the *numeric Baby ID* for the appointment:" }
      else
        .step { st := st1, nextStep := 2,
                reply := "--- New Appointment (2/4) ---\nGot the Baby ID. What is the Date of the Appointment? (in YYYY-MM-DD format, e.g., 2025-11-20):" }
  | 2 =>
    -- Collecting Appointment Date: unanchored regex test, raw text stored
    if dateRegexTest incomingText then
      .step { st := { state with data := { state.data with appointment_date := some (incomingText ++ "T00:00:00Z") } },
              nextStep := 3,
              reply := "--- New Appointment (3/4) ---\nDate confirmed. What is the Purpose of this ad-hoc appointment? (e.g., \x27Make up for missed dose\x27, \x27Checkup\x27):" }
    else
      .step { st := state, nextStep := 2,
              reply := "Invalid date format. Please enter the Appointment Date exactly in YYYY-MM-DD format (e.g., 2025-11-20):" }
  | 3 =>
    let d := { state.data with purpose_notes := some incomingText, chw_number := some senderId }
    .step { st := { state with data := d },
            nextStep := 4,
            reply := "\n--- Final Appointment Confirmation ---\nPlease review the details for the new appointment:\nBaby ID: " ++ jsJSNumField d.baby_id ++ "\nDate: " ++ jsSlice 10 (jsStr d.appointment_date) ++ "\nPurpose: " ++ jsStr d.purpose_notes ++ "\nCHW (Creator): " ++ jsStr d.chw_number ++ "\n\nIs this data CORRECT? Reply Y or N. (Reply N to restart)\n            " }
  | 4 =>
    -- Confirmation (Y/N)
    if userInput = "y" then
      .step { st := state, nextStep := 5, isConfirmed := true, result := save,
              deleted := true,
              calls := [BackendCall.save ("POST") ("/api/appointments")],
              reply :=
                if save.success then
                  "Success! An Ad-hoc Appointment for Baby ID " ++ jsJSNumField state.data.baby_id ++ " on " ++ jsSlice 10 (jsStr state.data.appointment_date) ++ " is created. The parent will be notified.\n\n" ++ MAIN_MENU
                else
                  "Error! Appointment creation failed. Check the logs. Type CANCEL.\nAPI Error: " ++ jsSlice 150 save.errorString ++ "..." }
    else if userInput = "n" then
      .step { st := { state with data := emptyData }, nextStep := 1,
              reply := "Okay, let\x27s restart the Ad-hoc Appointment process. Please enter the *Baby ID* again:" }
    else
      .step { st := state, nextStep := 4,
              reply := "I didn\x27t quite catch that. Please reply Y to confirm the details or N to restart the process." }
  | _ => .step { st := state, nextStep := state.step + 1, reply := "" }

/-- part_005 lines 666-750. -/
def handleCreateAppointment (senderId : String) (state : ConvState)
    (incomingText userInput : String) (save : SaveResult) : HandlerResult :=
  tail005 (createAppointmentCases senderId state incomingText userInput save)

/-- The numbered appointment list of the part_005 modify flow (lines
772-774). -/
def appointmentListText (appts : List Appointment) : String :=
  String.intercalate ("\n")
    (appts.enum.map (fun p =>
      toString (p.1 + 1) ++ ". Date: " ++ toLocaleDateString p.2.appointment_date ++
      " | Type: " ++ p.2.appointment_type ++ " | ID: " ++ toString p.2.id))

/-- The `switch (state.step)` of the part_005 `handleModifyCancelAppointment`
(lines 756-866). -/
def modifyCancelCases (_senderId : String) (state : ConvState)
    (incomingText userInput : String) (fetchAppts : Option (List Appointment))
    (save : SaveResult) : Option ConvState × String × List BackendCall :=
  match state.step with
  | 1 =>
    let b := jsParseInt incomingText
    let st1 := { state with data := { state.data with baby_id := some b } }
    let invalid :=
      (some st1,
       "That doesn\x27t look like a valid Baby ID. Please enter the *numeric Baby ID* whose appointments you want to manage:",
       ([] : List BackendCall))
    match b with
    | none => invalid
    | some v =>
      if v ≤ 0 then invalid
      else
        let call := BackendCall.fetch ("/api/appointments/" ++ toString v)
        match fetchAppts with
        | none =>
          (none,
           "No active appointments found for Baby ID " ++ toString v ++ ". Type CANCEL to return to the menu.",
           [call])
        | some [] =>
          (none,
           "No active appointments found for Baby ID " ++ toString v ++ ". Type CANCEL to return to the menu.",
           [call])
        | some appts =>
          (some { st1 with
                  step := 2
                  data := { st1.data with appointments := some appts } },
           "\n--- Modify/Cancel Appointment ---\nFound the following active appointments for Baby ID " ++ toString v ++ ":\n" ++ appointmentListText appts ++ "\n\nReply with the NUMBER of the appointment you wish to modify or cancel.\n                ",
           [call])
  | 2 =>
    let choiceIndex : JSNum := (jsParseInt incomingText).map (fun v => v - 1)
    let selected : Option Appointment := jsOptIndex state.data.appointments choiceIndex
    match selected with
    | some appt =>
      (some { state with
              step := 3
              data := { state.data with appointment_id := some appt.id } },
       "\nSelected Appointment ID: " ++ toString appt.id ++ " on " ++ toLocaleDateString appt.appointment_date ++ ".\nWhat would you like to do?\n1. Modify Date/Notes\n2. Cancel Appointment\n                ",
       [])
    | none =>
      (some { state with step := 2 },
       "Invalid selection. Please reply with the NUMBER (1, 2, 3...) of the appointment you want to manage.",
       [])
  | 3 =>
    if userInput = "1" then
      (some { state with step := 4 },
       "You chose to Modify. Please enter the NEW Date (YYYY-MM-DD) and a brief Note (e.g., 2025-12-15, Parent requested later date):",
       [])
    else if userInput = "2" then
      (some { state with step := 5 },
       "Are you sure you want to CANCEL Appointment ID " ++ jsNumField state.data.appointment_id ++ "? Reply YES to confirm cancellation.",
       [])
    else
      (some { state with step := 3 },
       "Invalid choice. Reply 1 to Modify or 2 to Cancel:",
       [])
  | 4 =>
    let parts := (jsSplitComma incomingText).map jsTrim
    let newDate := parts.headD ("")
    let joined := String.intercalate (", ") (parts.drop 1)
    let newNote := if joined.isEmpty then "Modified by CHW via WhatsApp." else joined
    if dateRegexTest newDate then
      let call := BackendCall.save ("PUT") ("/api/appointments/" ++ jsNumField state.data.appointment_id)
      if save.success then
        (none,
         "Success! Appointment ID " ++ jsNumField state.data.appointment_id ++ " modified to " ++ newDate ++ " with note: \"" ++ newNote ++ "\".\n\n" ++ MAIN_MENU,
         [call])
      else
        (none,
         "Error modifying appointment. Check logs. Type CANCEL.\nAPI Error: " ++ jsSlice 150 save.errorString ++ "...",
         [call])
    else
      (some { state with step := 4 },
       "Invalid format. Please enter the NEW Date (YYYY-MM-DD) and a brief Note, separated by a comma. (e.g., 2025-12-15, New time confirmed):",
       [])
  | 5 =>
    -- Execute Cancel (DELETE): `userInput.toLowerCase() === 'yes'`
    if jsToLower userInput = "yes" then
      let call := BackendCall.save ("DELETE") ("/api/appointments/" ++ jsNumField state.data.appointment_id)
      if save.success then
        (none,
         "Success! Appointment ID " ++ jsNumField state.data.appointment_id ++ " has been CANCELLED.\n\n" ++ MAIN_MENU,
         [call])
      else
        (none,
         "Error cancelling appointment. Check logs. Type CANCEL.\nAPI Error: " ++ jsSlice 150 save.errorString ++ "...",
         [call])
    else
      -- unlike part_003, the state stays on step 5
      (some { state with step := 5 },
       "Cancellation not confirmed. Please reply YES to cancel or CANCEL to return to the main menu.",
       [])
  | _ => (some state, "", [])

/-- part_005 lines 753-872.  The trailing
`if (userState.get(senderId)) await sendMessage(senderId, reply)` sends the
reply only when the flow did not terminate (and `sendMessage` itself skips
empty texts). -/
def handleModifyCancelAppointment (senderId : String) (state : ConvState)
    (incomingText userInput : String) (fetchAppts : Option (List Appointment))
    (save : SaveResult) : HandlerResult :=
  let r := modifyCancelCases senderId state incomingText userInput fetchAppts save
  ⟨r.1, if r.1.isSome then send r.2.1 else [], r.2.2⟩

/-- The POST-webhook pipeline of part_005 (lines 894-979), projected to one
text message for one sender.  A text message whose sender is not in
`AUTHORIZED_CHW_NUMBERS` is silently skipped — this variant sends no
access-denied reply and touches no state. -/
def processMessage (o : Oracle) (store : Option ConvState)
    (fromId : String) (body : String) : HandlerResult :=
  if !(AUTHORIZED_CHW_NUMBERS.contains fromId) then
    ⟨store, [], []⟩
  else
    let incomingText := jsTrim body
    let userInput := jsToLower incomingText
    -- Global CANCEL command
    if userInput = "cancel" then
      match store with
      | some _ =>
        ⟨none, send ("❌ **Flow Cancelled.**\nReturning to the main menu:\n" ++ MAIN_MENU), []⟩
      | none =>
        ⟨store, send ("Welcome! You are already at the main menu:\n" ++ MAIN_MENU), []⟩
    else
      match store with
      | none =>
        -- INITIAL STATE OR MENU SELECTION
        if userInput = "1" then
          ⟨some ⟨Flow.register_parent, 1, emptyData⟩,
           send ("--- New Parent (1/5) ---\nPlease enter the Parent/Guardian\x27s Official Name or ID (e.g., Jane Doe):"), []⟩
        else if userInput = "2" then
          ⟨some ⟨Flow.register_baby, 1, emptyData⟩,
           send ("--- New Baby (1/7) ---\nTo link the baby, please enter the **Parent/Guardian\x27s National ID** (e.g., 37108924):"), []⟩
        else if userInput = "3" then
          ⟨some ⟨Flow.create_appointment, 1, emptyData⟩,
           send ("--- New Appointment (1/4) ---\nPlease enter the *numeric Baby ID* for the appointment:"), []⟩
        else if userInput = "4" then
          ⟨some ⟨Flow.modify_appointment, 1, emptyData⟩,
           send ("--- Modify/Cancel Appointment (1/?) ---\nPlease enter the *numeric Baby ID* whose appointments you want to manage:"), []⟩
        else
          ⟨store, send MAIN_MENU, []⟩
      | some state =>
        -- CONTINUE FLOW
        match state.flow with
        | Flow.register_parent =>
          handleRegisterParent fromId state incomingText userInput o.save o.parsedError
        | Flow.register_baby =>
          handleRegisterBaby fromId state incomingText userInput o.parentSearch o.save o.parsedError
        | Flow.create_appointment =>
          handleCreateAppointment fromId state incomingText userInput o.save
        | Flow.modify_appointment =>
          handleModifyCancelAppointment fromId state incomingText userInput o.fetchAppts o.save
        | Flow.menu =>
          ⟨none, send ("Something went wrong. Returning to menu:\n" ++ MAIN_MENU), []⟩

/-- The GET `/whatsapp/webhook` verification handler of part_005 (lines
876-891): same structure as part_003 but responding via `sendStatus` (no
custom bodies). -/
def verifyGet (mode token challenge verifyToken : Option String) : Nat × Option String :=
  if jsTruthy mode && jsTruthy token then
    if strictEq mode (some ("subscribe")) && strictEq token verifyToken then
      (200, challenge)
    else
      (403, none)
  else
    (400, none)

end P5

/-! ## `P4`: the program of `src/unnamed/part_004` (the parts the claims
cite: the guardian lookup helper and the Register Baby flow) -/

namespace P4

/-- part_004 lines 38-48 (the plain-text menu, same as part_005's). -/
def MAIN_MENU : String :=
  "\n--- Immuno Main Menu ---\nHello, CHW! What would you like to do today?\n\n1. Register New Parent/Guardian (Household)\n2. Register New Baby (Child & Schedule)\n3. Create Ad-hoc Appointment\n4. Modify/Cancel Appointment\n\nHelpful Tip: Type CANCEL at any time to return to this menu.\n"

/-- This variant's `sendMessage` (part_004 lines 52-72) skips a text that is
empty after trimming. -/
def send (t : String) : List String :=
  if (jsTrim t).isEmpty then [] else [t]

/-- `getGuardianIdByNationalId` (part_004 lines 152-157):
`apiResponse?.id || null` — an absent response, an absent `id`, or an `id`
of `0` (falsy) all yield `null`. -/
def getGuardianIdByNationalId (apiResponse : Option GuardianApiRec) : Option Int :=
  match apiResponse with
  | some r =>
    match r.id with
    | some i => if i = 0 then none else some i
    | none => none
  | none => none

/-- The trailing logic of the part_004 `handleRegisterBaby` (lines 437-442),
identical in shape to part_005's. -/
def tail004 (c : CaseOut) : HandlerResult :=
  match c with
  | .ret r => r
  | .step o =>
    if !o.isConfirmed || (o.isConfirmed && !o.result.success) then
      ⟨some { o.st with step := o.nextStep }, send o.reply, o.calls⟩
    else
      ⟨if o.deleted then none else some o.st, send o.reply, o.calls⟩

/-- The reply of the branch analysis on a failed baby registration
(part_004 lines 410-422), textually the same as part_005's. -/
def babyRegFailReply (parsedError : Option LaravelError) (e : String)
    (guardianId : Option JSNum) : String :=
  match parsedError with
  | some le =>
    match le.errors with
    | some msgs =>
      "⚠️ Registration failed! Please correct the following API errors:\n" ++ String.intercalate ("\n") msgs ++ "\n\nType CANCEL to return to the menu."
    | none =>
      let errorMessage := jsOrElse le.message
        ("Error! Check logs and ensure Guardian ID " ++ jsJSNumField guardianId ++ " exists.")
      "Error! The baby registration failed. Type CANCEL to return to the menu.\nAPI Error: " ++ jsSlice 150 errorMessage ++ "..."
  | none =>
    "Error! Could not process API response. Check the logs for a non-JSON error. Type CANCEL.\nAPI Error: " ++ jsSlice 150 e ++ "..."

/-- The `switch (state.step)` of the part_004 `handleRegisterBaby` (lines
311-435).  In step 1 the lookup-failure branch executes
`userState.delete(senderId); return;` (line 326): the early `return` skips
the trailing send-and-store logic, so the constructed reply is never sent. -/
def registerBabyCases (state : ConvState) (incomingText userInput : String)
    (guardianResp : Option GuardianApiRec) (save : SaveResult)
    (parsedError : Option LaravelError) : CaseOut :=
  match state.step with
  | 1 =>
    -- Collecting the parent's National ID (`parseInt`, positive, length ≥ 5)
    let nationalId := jsParseInt incomingText
    match nationalId with
    | none =>
      .step { st := state, nextStep := 1,
              reply := "That doesn\x27t look like a valid Parent\x27s National ID. Please enter the *numeric National ID* (e.g., 12345678):" }
    | some v =>
      if v ≤ 0 ∨ incomingText.length < 5 then
        .step { st := state, nextStep := 1,
                reply := "That doesn\x27t look like a valid Parent\x27s National ID. Please enter the *numeric National ID* (e.g., 12345678):" }
      else
        let call := BackendCall.fetch ("/api/guardians/national_id/" ++ toString v)
        match getGuardianIdByNationalId guardianResp with
        | none =>
          -- `userState.delete(senderId); return;` — the reply is dropped
          .ret ⟨none, [], [call]⟩
        | some dbId =>
          let d := { state.data with
                     guardian_id := some (some dbId)
                     -- JS stores the number `nationalId` here; it is only
                     -- ever rendered inside a template literal
                     guardian_national_id := some (toString v) }
          .step { st := { state with data := d }, nextStep := 2, calls := [call],
                  reply := "--- New Baby (2/7) ---\nParent found! Please enter the baby\x27s First Name (or official ID name):" }
  | 2 =>
    .step { st := { state with data := { state.data with first_name := some incomingText } },
            nextStep := 3,
            reply := "--- New Baby (3/7) ---\nGot it. Now, please enter the baby\x27s Last Name:" }
  | 3 =>
    .step { st := { state with data := { state.data with last_name := some incomingText } },
            nextStep := 4,
            reply := "--- New Baby (4/7) ---\nIs the baby Male or Female? (Reply with M or F):" }
  | 4 =>
    if userInput = "m" ∨ userInput = "male" then
      .step { st := { state with data := { state.data with gender := some ("Male") } },
              nextStep := 5,
              reply := "--- New Baby (5/7) ---\nGender set to Male. Please enter the baby\x27s Date of Birth (in YYYY-MM-DD format, e.g., 2025-01-20):" }
    else if userInput = "f" ∨ userInput = "female" then
      .step { st := { state with data := { state.data with gender := some ("Female") } },
              nextStep := 5,
              reply := "--- New Baby (5/7) ---\nGender set to Female. Please enter the baby\x27s Date of Birth (in YYYY-MM-DD format, e.g., 2025-01-20):" }
    else
      .step { st := state, nextStep := 4,
              reply := "Invalid input. Please reply with M for Male or F for Female:" }
  | 5 =>
    -- Collecting Date of Birth: unanchored regex test, raw text stored
    if dateRegexTest incomingText then
      .step { st := { state with data := { state.data with date_of_birth := some (incomingText ++ "T00:00:00Z") } },
              nextStep := 6,
              reply := "--- New Baby (6/7) ---\nDOB confirmed. What is the baby\x27s Nationality? (e.g., Kenyan):" }
    else
      .step { st := state, nextStep := 5,
              reply := "Invalid date format. Please enter the Date of Birth exactly in YYYY-MM-DD format (e.g., 2025-01-20):" }
  | 6 =>
    let d := { state.data with
               nationality := some incomingText
               immunization_status := some ("PENDING_SCHEDULE")
               last_vaccine_received := some ("NONE")
               next_appointment_date := some none }
    .step { st := { state with data := d },
            nextStep := 7,
            reply := "\n--- Final Confirmation for Baby ---\nPlease review the details for the new baby:\nParent\x27s ID: " ++ jsStr d.guardian_national_id ++ "\nName: " ++ jsStr d.first_name ++ " " ++ jsStr d.last_name ++ "\nGender: " ++ jsStr d.gender ++ "\nDOB: " ++ jsSlice 10 (jsStr d.date_of_birth) ++ "\nNationality: " ++ jsStr d.nationality ++ "\n\nIs this data CORRECT? Reply Y or N. (Reply N to restart this registration)\n            " }
  | 7 =>
    if userInput = "y" then
      .step { st := state, nextStep := 8, isConfirmed := true, result := save,
              deleted := true,
              calls := [BackendCall.save ("POST") ("/api/babies")],
              reply :=
                if save.success then
                  "Success! Baby " ++ jsStr state.data.first_name ++ " is registered under Parent ID " ++ jsStr state.data.guardian_national_id ++ ". The immunization schedule will be created on your backend. Thank you for your work!\n\n" ++ MAIN_MENU
                else
                  babyRegFailReply parsedError save.errorString state.data.guardian_id }
    else if userInput = "n" then
      .step { st := { state with data := emptyData }, nextStep := 1,
              reply := "Okay, let\x27s start over! Please enter the Parent\x27s National ID again:" }
    else
      .step { st := state, nextStep := 7,
              reply := "I didn\x27t quite catch that. Please reply Y to confirm the details or N to restart the registration." }
  | _ => .step { st := state, nextStep := state.step + 1, reply := "" }

/-- part_004 lines 305-443. -/
def handleRegisterBaby (_senderId : String) (state : ConvState)
    (incomingText userInput : String) (guardianResp : Option GuardianApiRec)
    (save : SaveResult) (parsedError : Option LaravelError) : HandlerResult :=
  tail004 (registerBabyCases state incomingText userInput guardianResp save parsedError)

end P4

/-! ## `P2`: the minimal webhook of `src/unnamed/part_002` -/

namespace P2

/-- The GET `/whatsapp/webhook` verification handler of part_002 (lines
24-38): destructured query parameters, a single strict comparison, and 403
in every non-success case (including missing parameters). -/
def verifyGet (mode token challenge verifyToken : Option String) : Nat × Option String :=
  if strictEq mode (some ("subscribe")) && strictEq token verifyToken then
    (200, challenge)
  else
    (403, none)

end P2

/-! ## Characterization of the embedded JS primitives -/

/-- `matchAt` succeeds exactly on lists starting with four digits, `-`, two
digits, `-`, two digits. -/
theorem matchAt_iff (l : List Char) :
    matchAt l = true ↔
      ∃ (y1 y2 y3 y4 m1 m2 d1 d2 : Char) (rest : List Char),
        l = y1 :: y2 :: y3 :: y4 :: '-' :: m1 :: m2 :: '-' :: d1 :: d2 :: rest ∧
        (y1.isDigit && y2.isDigit && y3.isDigit && y4.isDigit &&
         m1.isDigit && m2.isDigit && d1.isDigit && d2.isDigit) = true := by
  constructor
  · intro h
    match l, h with
    | y1 :: y2 :: y3 :: y4 :: h1 :: m1 :: m2 :: h2 :: d1 :: d2 :: rest, h =>
      simp only [matchAt, Bool.and_eq_true, beq_iff_eq] at h
      obtain ⟨⟨⟨⟨⟨⟨⟨⟨⟨hy1, hy2⟩, hy3⟩, hy4⟩, hh1⟩, hm1⟩, hm2⟩, hh2⟩, hd1⟩, hd2⟩ := h
      subst hh1; subst hh2
      exact ⟨y1, y2, y3, y4, m1, m2, d1, d2, rest, rfl, by
        simp [hy1, hy2, hy3, hy4, hm1, hm2, hd1, hd2]⟩
  · rintro ⟨y1, y2, y3, y4, m1, m2, d1, d2, rest, rfl, hd⟩
    simp only [Bool.and_eq_true] at hd
    obtain ⟨⟨⟨⟨⟨⟨⟨hy1, hy2⟩, hy3⟩, hy4⟩, hm1⟩, hm2⟩, hd1⟩, hd2⟩ := hd
    simp [matchAt, hy1, hy2, hy3, hy4, hm1, hm2, hd1, hd2]

/-- The unanchored search succeeds exactly when `matchAt` succeeds on some
suffix. -/
theorem searchFrom_iff (l : List Char) :
    searchFrom l = true ↔ ∃ pre rest, l = pre ++ rest ∧ matchAt rest = true := by
  induction l with
  | nil =>
    constructor
    · intro h; simp [searchFrom] at h
    · rintro ⟨pre, rest, heq, hm⟩
      rcases pre with _ | ⟨p, ps⟩
      · rcases rest with _ | ⟨r, rs⟩
        · simp [matchAt] at hm
        · simp at heq
      · simp at heq
  | cons c t ih =>
    constructor
    · intro h
      rcases (Bool.or_eq_true _ _).mp ((by simpa [searchFrom] using h)) with h1 | h2
      · exact ⟨[], c :: t, rfl, h1⟩
      · obtain ⟨pre, rest, heq, hm⟩ := ih.mp h2
        exact ⟨c :: pre, rest, by simp [heq], hm⟩
    · rintro ⟨pre, rest, heq, hm⟩
      rcases pre with _ | ⟨p, ps⟩
      · simp only [List.nil_append] at heq
        subst heq
        simp [searchFrom, hm]
      · simp only [List.cons_append, List.cons.injEq] at heq
        obtain ⟨rfl, ht⟩ := heq
        have : searchFrom t = true := ih.mpr ⟨ps, rest, ht, hm⟩
        simp [searchFrom, this]

/-- The unanchored JS test `/\d{4}-\d{2}-\d{2}/.test(s)` holds exactly when
`s` contains a digit-shaped `YYYY-MM-DD` substring anywhere. -/
theorem dateRegexTest_iff (s : String) :
    dateRegexTest s = true ↔ hasDateShapedSubstring s := by
  unfold dateRegexTest hasDateShapedSubstring
  rw [searchFrom_iff]
  constructor
  · rintro ⟨pre, rest, heq, hm⟩
    obtain ⟨y1, y2, y3, y4, m1, m2, d1, d2, post, rfl, hd⟩ := (matchAt_iff rest).mp hm
    exact ⟨pre, post, y1, y2, y3, y4, m1, m2, d1, d2, heq, hd⟩
  · rintro ⟨pre, post, y1, y2, y3, y4, m1, m2, d1, d2, heq, hd⟩
    exact ⟨pre, y1 :: y2 :: y3 :: y4 :: '-' :: m1 :: m2 :: '-' :: d1 :: d2 :: post, heq,
      (matchAt_iff _).mpr ⟨y1, y2, y3, y4, m1, m2, d1, d2, post, rfl, hd⟩⟩

/-- `arr?.[parseInt(text) - 1]` is `undefined` whenever the parsed 1-based
selection is not a number, below 1, or above the length of the list. -/
theorem jsOptIndex_out_of_range {α : Type} (l : List α) (txt : String)
    (h : jsParseInt txt = none ∨
         ∃ v, jsParseInt txt = some v ∧ (v < 1 ∨ (l.length : Int) < v)) :
    jsOptIndex (some l) ((jsParseInt txt).map (fun v => v - 1)) = none := by
  rcases h with h | ⟨v, heq, hv⟩
  · rw [h]; rfl
  · rw [heq]
    rcases hv with hv | hv
    · show (if (v - 1 : Int) < 0 then none else l.get? (v - 1).toNat) = none
      rw [if_pos (by omega)]
    · show (if (v - 1 : Int) < 0 then none else l.get? (v - 1).toNat) = none
      rw [if_neg (by omega)]
      exact List.get?_eq_none.mpr (by omega)

/-! ## The claims -/

/-- Claim C1, counterexample: in the Register Guardian flow of part_003, a
`y` reply at the confirmation step (step 5) with a failing backend
submission sends the truncated error reply but does NOT delete the sender's
ConversationState — the trailing `userState.set` re-stores it with
`step = 6`, so the entry is present after the message is handled, contrary
to the claim. -/
theorem claim_C1_counterexample :
    P3.handleRegisterParent ("254713182732") ⟨Flow.register_parent, 5, emptyData⟩
        ("Y") ("y") (SaveResult.err ("boom")) =
      ⟨some ⟨Flow.register_parent, 6, emptyData⟩,
       ["❌ Oh dear, there was an error saving the data. Please check the logs and ensure your Laravel API is running and try again, or type CANCEL.\nAPI Error: boom..."],
       [BackendCall.save ("POST") ("/register")]⟩ := rfl

/-- Claim C1 (amended): when the user replies `y` at the confirmation step
and the backend submission fails, the handler sends an error message
containing a truncated excerpt of the backend's error body (100 characters
in part_003, 150 in part_005), but the sender's ConversationState is NOT
deleted: the `userState.delete` inside the case body is immediately undone
by the trailing `userState.set`, which re-stores the state with `step`
advanced past the confirmation step, so no flow case matches any further
input and the user must cancel to restart.  Stated for the two cited
handlers: part_003's `handleRegisterParent` (for every error body `e`) and
part_005's `handleRegisterBaby` (entry and calls for every error body; the
full result for a concrete non-JSON error body, which takes the `catch`
branch of its reply construction). -/
theorem claim_C1_amended (sender txt e : String) (f : Flow) (d d5 : UserData)
    (sr : Option ParentSearchResponse) :
    P3.handleRegisterParent sender ⟨f, 5, d⟩ txt ("y") (SaveResult.err e) =
      ⟨some ⟨f, 6, d⟩,
       ["❌ Oh dear, there was an error saving the data. Please check the logs and ensure your Laravel API is running and try again, or type CANCEL.\nAPI Error: " ++ jsSlice 100 e ++ "..."],
       [BackendCall.save ("POST") ("/register")]⟩ ∧
    (P5.handleRegisterBaby sender ⟨f, 7, d5⟩ txt ("y") sr (SaveResult.err e) none).entry =
      some ⟨f, 8, d5⟩ ∧
    (P5.handleRegisterBaby sender ⟨f, 7, d5⟩ txt ("y") sr (SaveResult.err e) none).calls =
      [BackendCall.save ("POST") ("/api/babies")] ∧
    P5.handleRegisterBaby sender ⟨f, 7, d5⟩ txt ("y") sr (SaveResult.err ("Server Error 500")) none =
      ⟨some ⟨f, 8, d5⟩,
       ["Error! Could not process API response. Check the logs for a non-JSON error. Type CANCEL.\nAPI Error: Server Error 500..."],
       [BackendCall.save ("POST") ("/api/babies")]⟩ :=
  ⟨rfl, rfl, rfl, rfl⟩

/-- Claim C2 (confirmed): for an authorized sender with any stored state in
an active flow — any flow tag other than `menu`, any step, any data — an
inbound message whose trimmed, lowercased text is `cancel` deletes the
entry, informs the user, and sends the exact main-menu text; the result does
not depend on the stored step or data (the check precedes all flow
dispatch), nor on the backend oracle (no backend call is made). -/
theorem claim_C2_cancel (o : Oracle) (st : ConvState) (fromId body : String)
    (hauth : digitsOnly fromId ∈ P3.AUTHORIZED_CHW_NUMBERS)
    (hcancel : jsToLower (jsTrim body) = "cancel")
    (hflow : st.flow ≠ Flow.menu) :
    P3.processMessage o (some st) fromId body =
      ⟨none, ["Operation cancelled. Heading back to the main menu.", P3.MAIN_MENU], []⟩ := by
  simp [P3.processMessage, hauth, hcancel, hflow]

/-- Witness for C2 at a concrete input: the first allow-listed sender, in
the Register Baby flow at step 4, sends `" CANCEL "`. -/
theorem claim_C2_cancel_witness :
    digitsOnly ("254713182732") ∈ P3.AUTHORIZED_CHW_NUMBERS ∧
    jsToLower (jsTrim (" CANCEL ")) = "cancel" ∧
    (⟨Flow.register_baby, 4, emptyData⟩ : ConvState).flow ≠ Flow.menu ∧
    P3.processMessage {} (some ⟨Flow.register_baby, 4, emptyData⟩) ("254713182732") (" CANCEL ") =
      ⟨none, ["Operation cancelled. Heading back to the main menu.", P3.MAIN_MENU], []⟩ :=
  ⟨by decide, by rfl, by decide,
   claim_C2_cancel {} ⟨Flow.register_baby, 4, emptyData⟩ ("254713182732") (" CANCEL ")
     (by decide) (by rfl) (by decide)⟩

/-- Claim C3, counterexample: in the part_005 pipeline (cited lines
904-910), a text message from a sender not on the allow-list is silently
skipped — NO message at all is sent, so processing does not yield the fixed
access-denied reply the claim asserts. -/
theorem claim_C3_counterexample :
    ("999888777" : String) ∉ P5.AUTHORIZED_CHW_NUMBERS ∧
    P5.processMessage {} (some ⟨Flow.register_baby, 4, emptyData⟩) ("999888777") ("hello") =
      ⟨some ⟨Flow.register_baby, 4, emptyData⟩, [], []⟩ ∧
    (P5.processMessage {} (some ⟨Flow.register_baby, 4, emptyData⟩) ("999888777") ("hello")).msgs ≠
      [P3.ACCESS_DENIED] :=
  ⟨by decide, rfl, by decide⟩

/-- Claim C3 (amended): for every sender not on the allow-list, the part_003
pipeline yields exactly the fixed access-denied reply, and the part_005
pipeline yields no reply at all; in both, the result holds for every stored
state and leaves it unchanged (no ConversationState entry is created, read,
or written — the output is independent of the store, which is returned
untouched), and no backend call is made. -/
theorem claim_C3_amended (o : Oracle) (store : Option ConvState) (fromId body : String)
    (h3 : digitsOnly fromId ∉ P3.AUTHORIZED_CHW_NUMBERS)
    (h5 : fromId ∉ P5.AUTHORIZED_CHW_NUMBERS) :
    P3.processMessage o store fromId body = ⟨store, [P3.ACCESS_DENIED], []⟩ ∧
    P5.processMessage o store fromId body = ⟨store, [], []⟩ := by
  constructor
  · simp [P3.processMessage, h3]
  · simp [P5.processMessage, h5]

/-- Witness for the amended C3 at a concrete unauthorized sender. -/
theorem claim_C3_amended_witness :
    digitsOnly ("999888777") ∉ P3.AUTHORIZED_CHW_NUMBERS ∧
    ("999888777" : String) ∉ P5.AUTHORIZED_CHW_NUMBERS ∧
    (P3.processMessage {} none ("999888777") ("2") = ⟨none, [P3.ACCESS_DENIED], []⟩ ∧
     P5.processMessage {} none ("999888777") ("2") = ⟨none, [], []⟩) :=
  ⟨by decide, by decide,
   claim_C3_amended {} none ("999888777") ("2") (by decide) (by decide)⟩

/-- Claim C4: the phone-number step stores
`incomingText.replace(/^(0|\+)/, '254')`, which replaces only the single
leading character.  An input entered with `+254` therefore passes the
pattern but is stored double-prefixed as `254254…`, and a bare `7…` input is
stored with no `254` prefix at all — both contradicting the claimed (and
commented: `Clean number to 254 format`) normalization; only the `0…` and
`254…` entry forms are stored as a single `254`-prefixed number.  Evaluated
on part_005's `handleRegisterParent` at the WhatsApp-number step (step 3). -/
theorem claim_C4_code_behavior :
    kenyanPhoneTest ("+254712345678") = true ∧
    (P5.handleRegisterParent ("s") ⟨Flow.register_parent, 3, emptyData⟩
        ("+254712345678") ("+254712345678") SaveResult.ok none).entry =
      some ⟨Flow.register_parent, 4, { emptyData with whatsapp_number := some ("254254712345678") }⟩ ∧
    kenyanPhoneTest ("712345678") = true ∧
    (P5.handleRegisterParent ("s") ⟨Flow.register_parent, 3, emptyData⟩
        ("712345678") ("712345678") SaveResult.ok none).entry =
      some ⟨Flow.register_parent, 4, { emptyData with whatsapp_number := some ("712345678") }⟩ ∧
    kenyanPhoneTest ("0712345678") = true ∧
    (P5.handleRegisterParent ("s") ⟨Flow.register_parent, 3, emptyData⟩
        ("0712345678") ("0712345678") SaveResult.ok none).entry =
      some ⟨Flow.register_parent, 4, { emptyData with whatsapp_number := some ("254712345678") }⟩ ∧
    kenyanPhoneTest ("254712345678") = true ∧
    (P5.handleRegisterParent ("s") ⟨Flow.register_parent, 3, emptyData⟩
        ("254712345678") ("254712345678") SaveResult.ok none).entry =
      some ⟨Flow.register_parent, 4, { emptyData with whatsapp_number := some ("254712345678") }⟩ :=
  ⟨rfl, rfl, rfl, rfl, rfl, rfl, rfl, rfl⟩

/-- Claim C5: a well-formed national ID whose backend lookup returns no
guardian does NOT behave as claimed in either cited variant.  part_004
deletes the state but its early `return` skips the trailing send, so the
"not found" reply it just built is never sent (no message at all); part_005
sends the "not found" reply but then re-stores the state with `step = 2`,
so the flow continues and the next input is treated as the baby's first
name.  In neither variant do "state deleted" and "message sent" hold
together. -/
theorem claim_C5_code_behavior :
    P4.handleRegisterBaby ("s") ⟨Flow.register_baby, 1, emptyData⟩ ("12345") ("12345")
        none SaveResult.ok none =
      ⟨none, [], [BackendCall.fetch ("/api/guardians/national_id/12345")]⟩ ∧
    P5.handleRegisterBaby ("s") ⟨Flow.register_baby, 1, emptyData⟩ ("12345") ("12345")
        none SaveResult.ok none =
      ⟨some ⟨Flow.register_baby, 2, emptyData⟩,
       [P5.parentLookupFailedMsg ("12345")],
       [BackendCall.fetch ("/api/parents/search?national_id=12345")]⟩ :=
  ⟨rfl, rfl⟩

/-- Claim C6 (confirmed): replying `n` (the lowercased trimmed input) at the
confirmation step resets the state to `step = 1` with `data` cleared to the
empty record and re-prompts, for every previously accumulated data record:
stated for the Create Appointment flow in both cited variants (step 4,
re-prompting for the baby ID), and likewise for the confirmation steps of
the Register Guardian and Register Baby flows in both variants.  No backend
call is made. -/
theorem claim_C6_reset_on_n (sender txt : String) (f : Flow)
    (d1 d2 d3 d4 d5 d6 : UserData) (save : SaveResult)
    (sr : Option ParentSearchResponse) (pe : Option LaravelError) :
    P5.handleCreateAppointment sender ⟨f, 4, d1⟩ txt ("n") save =
      ⟨some ⟨f, 1, emptyData⟩,
       ["Okay, let\x27s restart the Ad-hoc Appointment process. Please enter the *Baby ID* again:"], []⟩ ∧
    P3.handleCreateAppointment sender ⟨f, 4, d2⟩ txt ("n") save =
      ⟨some ⟨f, 1, emptyData⟩,
       ["Okay, let\x27s restart the Ad-hoc Appointment process. Please enter the *Baby ID* again:"], []⟩ ∧
    P3.handleRegisterParent sender ⟨f, 5, d3⟩ txt ("n") save =
      ⟨some ⟨f, 1, emptyData⟩,
       ["Okay, let\x27s start over! Please enter the *Parent/Guardian\x27s Official Name or ID* again:"], []⟩ ∧
    P3.handleRegisterBaby sender ⟨f, 7, d4⟩ txt ("n") save =
      ⟨some ⟨f, 1, emptyData⟩,
       ["Okay, let\x27s start over! Please enter the *Guardian ID* again:"], []⟩ ∧
    P5.handleRegisterParent sender ⟨f, 6, d5⟩ txt ("n") save pe =
      ⟨some ⟨f, 1, emptyData⟩,
       ["Okay, let\x27s start over! Please enter the Parent/Guardian\x27s Official Name or ID again:"], []⟩ ∧
    P5.handleRegisterBaby sender ⟨f, 7, d6⟩ txt ("n") sr save pe =
      ⟨some ⟨f, 1, emptyData⟩,
       ["Okay, let\x27s start over! Please enter the Guardian\x27s National ID again:"], []⟩ :=
  ⟨rfl, rfl, rfl, rfl, rfl, rfl⟩

/-- Claim C7 (confirmed): at step 2 of the Modify/Cancel flow, with any
appointments list of length `n` stored in `data.appointments`, an input
whose 1-based numeric selection is out of range (not a number, below 1, or
above `n`) leaves the state at step 2 with `data` — in particular
`data.appointments` — unchanged, sends the re-prompt, and makes no backend
call; in both cited variants. -/
theorem claim_C7_invalid_selection (sender txt u : String) (f : Flow)
    (d : UserData) (l : List Appointment) (fa : Option (List Appointment))
    (save : SaveResult)
    (h : jsParseInt txt = none ∨
         ∃ v, jsParseInt txt = some v ∧ (v < 1 ∨ (l.length : Int) < v)) :
    P3.handleModifyCancelAppointment sender ⟨f, 2, { d with appointments := some l }⟩ txt u fa save =
      ⟨some ⟨f, 2, { d with appointments := some l }⟩,
       ["Invalid selection. Please reply with the *NUMBER* (1, 2, 3...) of the appointment you want to manage."],
       []⟩ ∧
    P5.handleModifyCancelAppointment sender ⟨f, 2, { d with appointments := some l }⟩ txt u fa save =
      ⟨some ⟨f, 2, { d with appointments := some l }⟩,
       ["Invalid selection. Please reply with the NUMBER (1, 2, 3...) of the appointment you want to manage."],
       []⟩ := by
  have hsel := jsOptIndex_out_of_range l txt h
  constructor
  · simp [P3.handleModifyCancelAppointment, P3.modifyCancelCases, hsel]
  · simp [P5.handleModifyCancelAppointment, P5.modifyCancelCases, P5.send, hsel]
    decide

/-- Witness for C7: a single-appointment list and the out-of-range
selection `0`. -/
theorem claim_C7_invalid_selection_witness :
    (jsParseInt ("0") = none ∨
     ∃ v, jsParseInt ("0") = some v ∧
       (v < 1 ∨ ((([⟨7, "2025-11-20T00:00:00Z", "Ad-hoc"⟩] : List Appointment)).length : Int) < v)) ∧
    P3.handleModifyCancelAppointment ("254713182732")
        ⟨Flow.modify_appointment, 2, { emptyData with appointments := some [⟨7, "2025-11-20T00:00:00Z", "Ad-hoc"⟩] }⟩
        ("0") ("0") none SaveResult.ok =
      ⟨some ⟨Flow.modify_appointment, 2, { emptyData with appointments := some [⟨7, "2025-11-20T00:00:00Z", "Ad-hoc"⟩] }⟩,
       ["Invalid selection. Please reply with the *NUMBER* (1, 2, 3...) of the appointment you want to manage."],
       []⟩ :=
  ⟨Or.inr ⟨0, rfl, Or.inl (by decide)⟩,
   (claim_C7_invalid_selection ("254713182732") ("0") ("0") Flow.modify_appointment
     emptyData [⟨7, "2025-11-20T00:00:00Z", "Ad-hoc"⟩] none SaveResult.ok
     (Or.inr ⟨0, rfl, Or.inl (by decide)⟩)).1⟩

/-- Claim C8, counterexample: in the part_005 variant, a non-`yes` input at
step 5 leaves the state's step at 5 (re-prompting the YES confirmation) —
it is not set back to 3 as the claim states. -/
theorem claim_C8_counterexample :
    P5.handleModifyCancelAppointment ("s")
        ⟨Flow.modify_appointment, 5, { emptyData with appointment_id := some 7 }⟩
        ("no") ("no") none SaveResult.ok =
      ⟨some ⟨Flow.modify_appointment, 5, { emptyData with appointment_id := some 7 }⟩,
       ["Cancellation not confirmed. Please reply YES to cancel or CANCEL to return to the main menu."],
       []⟩ ∧
    (5 : Nat) ≠ 3 :=
  ⟨rfl, by decide⟩

/-- Claim C8 (amended): at step 5, only the literal confirmation `yes` (as
the lowercased trimmed input) triggers the backend DELETE call, in both
variants, and for every other input no backend call is made — but the two
variants then diverge everywhere else.  On `yes`, part_005 terminates the
flow with the state deleted (and, since the trailing send is guarded by
`userState.get`, no reply); part_003 issues the DELETE call and then throws
a `ReferenceError` on the assignment to its undeclared `result` variable, so
its `userState.delete` is never reached: the state survives at step 5 and no
reply is sent — the flow does not terminate.  On any other input, part_003
sets the step back to 3 (re-prompting the modify-or-cancel action choice)
while part_005 keeps the step at 5, re-prompting the YES confirmation. -/
theorem claim_C8_amended (sender txt txt2 u : String) (f : Flow) (d : UserData)
    (fa : Option (List Appointment)) (save : SaveResult)
    (h3 : u ≠ "yes") (h5 : jsToLower u ≠ "yes") :
    P3.handleModifyCancelAppointment sender ⟨f, 5, d⟩ txt u fa save =
      ⟨some ⟨f, 3, d⟩,
       ["Cancellation not confirmed. Returning to the action menu. Reply *1* to Modify or *2* to Cancel:"],
       []⟩ ∧
    P5.handleModifyCancelAppointment sender ⟨f, 5, d⟩ txt u fa save =
      ⟨some ⟨f, 5, d⟩,
       ["Cancellation not confirmed. Please reply YES to cancel or CANCEL to return to the main menu."],
       []⟩ ∧
    P3.handleModifyCancelAppointment sender ⟨f, 5, d⟩ txt2 ("yes") fa save =
      ⟨some ⟨f, 5, d⟩, [],
       [BackendCall.save ("DELETE") ("/appointments/" ++ jsNumField d.appointment_id)]⟩ ∧
    P5.handleModifyCancelAppointment sender ⟨f, 5, d⟩ txt2 ("yes") fa save =
      ⟨none, [], [BackendCall.save ("DELETE") ("/api/appointments/" ++ jsNumField d.appointment_id)]⟩ := by
  refine ⟨?_, ?_, ?_, ?_⟩
  · simp [P3.handleModifyCancelAppointment, P3.modifyCancelCases, h3]
  · simp [P5.handleModifyCancelAppointment, P5.modifyCancelCases, P5.send, h5]
    decide
  · rfl
  · cases save <;> rfl

/-- Witness for the amended C8 at the concrete non-`yes` input `no`. -/
theorem claim_C8_amended_witness :
    ("no" : String) ≠ "yes" ∧ jsToLower ("no") ≠ "yes" ∧
    P3.handleModifyCancelAppointment ("s") ⟨Flow.modify_appointment, 5, { emptyData with appointment_id := some 7 }⟩
        ("no") ("no") none SaveResult.ok =
      ⟨some ⟨Flow.modify_appointment, 3, { emptyData with appointment_id := some 7 }⟩,
       ["Cancellation not confirmed. Returning to the action menu. Reply *1* to Modify or *2* to Cancel:"],
       []⟩ :=
  ⟨by decide, by decide,
   (claim_C8_amended ("s") ("YES") ("YES") ("no") Flow.modify_appointment
     { emptyData with appointment_id := some 7 } none SaveResult.ok
     (by decide) (by decide)).1⟩

/-- Claim C9, counterexample: a GET verification request with `hub.mode`
missing is answered 400 by the part_003 handler, not 403 as the claim
states. -/
theorem claim_C9_counterexample :
    (P3.verifyGet none (some ("secret")) (some ("challenge-token")) (some ("secret"))).1 = 400 ∧
    (400 : Nat) ≠ 403 :=
  ⟨rfl, by decide⟩

/-- Claim C9 (amended): the response is 200 with body equal to
`hub.challenge` exactly when `hub.mode` equals `subscribe` and
`hub.verify_token` equals the configured secret (both present); when both
parameters are present (truthy) but the check fails the status is 403; when
either is missing the part_003 handler responds 400, while the part_002
variant responds 403 in every non-success case, as the claim states. -/
theorem claim_C9_amended (m t c cfg : Option String) :
    (P3.verifyGet m t c cfg = (200, c) ↔
      (jsTruthy m = true ∧ jsTruthy t = true ∧ m = some ("subscribe") ∧ t = cfg)) ∧
    ((P3.verifyGet m t c cfg).1 = 403 ↔
      (jsTruthy m = true ∧ jsTruthy t = true ∧ ¬(m = some ("subscribe") ∧ t = cfg))) ∧
    ((P3.verifyGet m t c cfg).1 = 400 ↔ ¬(jsTruthy m = true ∧ jsTruthy t = true)) ∧
    (P2.verifyGet m t c cfg = (200, c) ↔ (m = some ("subscribe") ∧ t = cfg)) ∧
    ((P2.verifyGet m t c cfg).1 = 403 ↔ ¬(m = some ("subscribe") ∧ t = cfg)) := by
  cases hm : jsTruthy m <;> cases ht : jsTruthy t <;>
    by_cases h3 : m = some ("subscribe") <;> by_cases h4 : t = cfg <;>
      simp_all [P3.verifyGet, P2.verifyGet, strictEq]

/-- Claim C10, counterexample: at the modify new-date step, the input
`note, 2025-01-20` contains a digit-shaped `YYYY-MM-DD` substring but is
rejected (re-prompt, no backend call, nothing stored), because the
unanchored test is applied only to the trimmed text before the first
comma. -/
theorem claim_C10_counterexample :
    dateRegexTest ("note, 2025-01-20") = true ∧
    P5.handleModifyCancelAppointment ("s")
        ⟨Flow.modify_appointment, 4, { emptyData with appointment_id := some 7 }⟩
        ("note, 2025-01-20") ("note, 2025-01-20") none SaveResult.ok =
      ⟨some ⟨Flow.modify_appointment, 4, { emptyData with appointment_id := some 7 }⟩,
       ["Invalid format. Please enter the NEW Date (YYYY-MM-DD) and a brief Note, separated by a comma. (e.g., 2025-12-15, New time confirmed):"],
       []⟩ :=
  ⟨rfl, rfl⟩

/-- Claim C10 (amended): the date validator is the unanchored
`/\d{4}-\d{2}-\d{2}/`, which succeeds exactly when the tested string
contains a digit-shaped `YYYY-MM-DD` substring anywhere (impossible dates
such as `2025-99-99` included).  At the baby date-of-birth and
appointment-date steps the test is applied to the whole input and, on
acceptance, the stored value is the entire raw input with `T00:00:00Z`
appended; at the modify new-date step the test (and the submitted value)
instead use only the trimmed text before the first comma of the input. -/
theorem claim_C10_amended (sender txt u s : String) (f : Flow) (d : UserData)
    (sr : Option ParentSearchResponse) (save : SaveResult)
    (pe : Option LaravelError) (fa : Option (List Appointment)) :
    (dateRegexTest s = true ↔ hasDateShapedSubstring s) ∧
    (P5.handleRegisterBaby sender ⟨f, 5, d⟩ txt u sr save pe =
      if dateRegexTest txt then
        ⟨some ⟨f, 6, { d with date_of_birth := some (txt ++ "T00:00:00Z") }⟩,
         ["--- New Baby (6/7) ---\nDOB confirmed. What is the baby\x27s Nationality? (e.g., Kenyan):"], []⟩
      else
        ⟨some ⟨f, 5, d⟩,
         ["Invalid date format. Please enter the Date of Birth exactly in YYYY-MM-DD format (e.g., 2025-01-20):"], []⟩) ∧
    (P5.handleCreateAppointment sender ⟨f, 2, d⟩ txt u save =
      if dateRegexTest txt then
        ⟨some ⟨f, 3, { d with appointment_date := some (txt ++ "T00:00:00Z") }⟩,
         ["--- New Appointment (3/4) ---\nDate confirmed. What is the Purpose of this ad-hoc appointment? (e.g., \x27Make up for missed dose\x27, \x27Checkup\x27):"], []⟩
      else
        ⟨some ⟨f, 2, d⟩,
         ["Invalid date format. Please enter the Appointment Date exactly in YYYY-MM-DD format (e.g., 2025-11-20):"], []⟩) ∧
    (P5.handleModifyCancelAppointment sender ⟨f, 4, d⟩ txt u fa save =
      if dateRegexTest (((jsSplitComma txt).map jsTrim).headD ("")) then
        ⟨none, [], [BackendCall.save ("PUT") ("/api/appointments/" ++ jsNumField d.appointment_id)]⟩
      else
        ⟨some ⟨f, 4, d⟩,
         ["Invalid format. Please enter the NEW Date (YYYY-MM-DD) and a brief Note, separated by a comma. (e.g., 2025-12-15, New time confirmed):"], []⟩) ∧
    dateRegexTest ("abc 2025-01-20 xyz") = true ∧
    dateRegexTest ("2025-99-99") = true := by
  refine ⟨dateRegexTest_iff s, ?_, ?_, ?_, rfl, rfl⟩
  · cases h : dateRegexTest txt <;>
      simp [P5.handleRegisterBaby, P5.registerBabyCases, P5.tail005, P5.send, h] <;>
        decide
  · cases h : dateRegexTest txt <;>
      simp [P5.handleCreateAppointment, P5.createAppointmentCases, P5.tail005, P5.send, h] <;>
        decide
  · cases h : dateRegexTest (((jsSplitComma txt).map jsTrim).headD ("")) <;>
      cases save <;>
        · simp only [List.headD_eq_head?_getD, List.head?_map] at h
          simp [P5.handleModifyCancelAppointment, P5.modifyCancelCases, P5.send,
                SaveResult.success, h] <;>
            decide

end WhatsBot
